import Mathlib

/-!
FastDeploy runtime: capability tables, build flags, engine selectors, the
three-stage pipeline of a model and the engine lists of two models.

A shallow embedding of `fastdeploy/runtime/enum_variables.{h,cc}`,
`fastdeploy/runtime/runtime_option.{h,cc}`,
`fastdeploy/vision/classification/ppshitu/ppshituv2_rec.cc` and
`fastdeploy/vision/sr/ppsr/basicvsr.cc`.

* C++ enumerations become inductive types with the enumerators of the source.
* A `std::map` built from an initializer list becomes the list of its
  initializer entries; `map::find` is the first entry with the key (an
  initializer list keeps the first of two entries with one key).
* Preprocessor flags (`#ifdef ENABLE_..._BACKEND`, `WITH_GPU`) become the
  fields of a `BuildFlags` record given to every function that depends on them.
* What a function streams to `FDERROR` is returned next to its result.
* A member function that can stop in `FDASSERT` returns `Except`, the error
  carrying the assertion message and the object as it was when the assertion
  failed.
-/

namespace fastdeploy

/-! ## enum_variables.h -/

/-- Inference backend supported in FastDeploy (`enum Backend`). -/
inductive Backend where
  | UNKNOWN
  | ORT
  | TRT
  | OPENVINO
  | RKNPU2
  | SOPHGOTPU
  | HORIZONNPU
  deriving DecidableEq, Repr, Inhabited

/-- Target hardware (`enum Device`). -/
inductive Device where
  | CPU
  | GPU
  | RKNPU
  | IPU
  | ASCEND
  | SOPHGOTPUD
  | SUNRISENPU
  deriving DecidableEq, Repr, Inhabited

/-- Deep learning model format (`enum ModelFormat`). -/
inductive ModelFormat where
  | AUTOREC
  | ONNX
  | RKNN
  | SOPHGO
  | HORIZON
  deriving DecidableEq, Repr, Inhabited

instance : Fintype Backend :=
  ⟨⟨[Backend.UNKNOWN, Backend.ORT, Backend.TRT, Backend.OPENVINO, Backend.RKNPU2,
      Backend.SOPHGOTPU, Backend.HORIZONNPU], by decide⟩, fun b => by cases b <;> decide⟩

instance : Fintype Device :=
  ⟨⟨[Device.CPU, Device.GPU, Device.RKNPU, Device.IPU, Device.ASCEND,
      Device.SOPHGOTPUD, Device.SUNRISENPU], by decide⟩, fun d => by cases d <;> decide⟩

instance : Fintype ModelFormat :=
  ⟨⟨[ModelFormat.AUTOREC, ModelFormat.ONNX, ModelFormat.RKNN, ModelFormat.SOPHGO,
      ModelFormat.HORIZON], by decide⟩, fun f => by cases f <;> decide⟩

/-- All the supported backends for a model format
(`s_default_backends_by_format`), in the order of the initializer list. -/
def s_default_backends_by_format : List (ModelFormat × List Backend) :=
  [ (ModelFormat.ONNX, [Backend.ORT, Backend.OPENVINO, Backend.TRT]),
    (ModelFormat.RKNN, [Backend.RKNPU2]),
    (ModelFormat.HORIZON, [Backend.HORIZONNPU]),
    (ModelFormat.SOPHGO, [Backend.SOPHGOTPU]) ]

/-- All the supported backends for a device (`s_default_backends_by_device`),
in the order of the initializer list. -/
def s_default_backends_by_device : List (Device × List Backend) :=
  [ (Device.CPU, [Backend.ORT, Backend.OPENVINO]),
    (Device.GPU, [Backend.ORT, Backend.TRT]),
    (Device.RKNPU, [Backend.RKNPU2]),
    (Device.SUNRISENPU, [Backend.HORIZONNPU]),
    (Device.IPU, []),
    (Device.ASCEND, []),
    (Device.SOPHGOTPUD, [Backend.SOPHGOTPU]) ]

/-- The lookup `std::map::find`: the mapped value of the entry with key `k`,
or `none` for `end()`. -/
def find {κ : Type} [DecidableEq κ] {β : Type} : List (κ × β) → κ → Option β
  | [], _ => none
  | (k', v) :: rest, k => if k' = k then some v else find rest k

/-- The scan `for (i = 0; i < v.size(); ++i) if (v[i] == backend) return true;`
of `Supported` and `IsBackendAvailable`: `true` when the loop returns, `false`
when it runs to the end of the vector. -/
def scan : List Backend → Backend → Bool
  | [], _ => false
  | x :: rest, backend => if x = backend then true else scan rest backend

/-- The lines the two `Supported` overloads stream to `FDERROR`.  The `msg`
field of the last two is the vector handed to `Str` in
`std::string msg = Str(iter->second)`. -/
inductive Diagnostic where
  /-- The line "Didn't find format is registered in s_default_backends_by_format." -/
  | format_not_registered
  /-- The line "Didn't find device is registered in s_default_backends_by_device." -/
  | device_not_registered
  /-- The line `backend << " only supports " << msg << ", but now it's " << format`. -/
  | format_only_supports (backend : Backend) (msg : List Backend) (format : ModelFormat)
  /-- The line `backend << " only supports " << msg << ", but now it's " << device`. -/
  | device_only_supports (backend : Backend) (msg : List Backend) (device : Device)
  deriving DecidableEq, Repr

/-- What a call of `Supported` yields: the returned `bool` and the line written
to `FDERROR`, if any. -/
structure Report where
  result : Bool
  error : Option Diagnostic
  deriving DecidableEq, Repr

/-- The overload `Supported(ModelFormat format, Backend backend)`. -/
def ModelFormat.Supported (format : ModelFormat) (backend : Backend) : Report :=
  match find s_default_backends_by_format format with
  | none => ⟨false, some Diagnostic.format_not_registered⟩
  | some second =>
    if scan second backend then ⟨true, none⟩
    else ⟨false, some (Diagnostic.format_only_supports backend second format)⟩

/-- The overload `Supported(Device device, Backend backend)`. -/
def Device.Supported (device : Device) (backend : Backend) : Report :=
  match find s_default_backends_by_device device with
  | none => ⟨false, some Diagnostic.device_not_registered⟩
  | some second =>
    if scan second backend then ⟨true, none⟩
    else ⟨false, some (Diagnostic.device_only_supports backend second device)⟩

/-! ## enum_variables.cc -/

/-- The preprocessor symbols the runtime sources test with `#ifdef`; a field is
`true` when the symbol is defined for the build. -/
structure BuildFlags where
  ENABLE_ORT_BACKEND : Bool
  ENABLE_TRT_BACKEND : Bool
  ENABLE_OPENVINO_BACKEND : Bool
  ENABLE_RKNPU2_BACKEND : Bool
  ENABLE_HORIZON_BACKEND : Bool
  ENABLE_SOPHGO_BACKEND : Bool
  WITH_GPU : Bool
  ENABLE_ENCRYPTION : Bool
  deriving DecidableEq, Repr

/-- All the available inference backends (`GetAvailableBackends`): one
`push_back` per defined symbol, in the order of the source. -/
def GetAvailableBackends (flags : BuildFlags) : List Backend :=
  let backends : List Backend := []
  let backends := if flags.ENABLE_ORT_BACKEND then backends ++ [Backend.ORT] else backends
  let backends := if flags.ENABLE_TRT_BACKEND then backends ++ [Backend.TRT] else backends
  let backends :=
    if flags.ENABLE_OPENVINO_BACKEND then backends ++ [Backend.OPENVINO] else backends
  let backends := if flags.ENABLE_RKNPU2_BACKEND then backends ++ [Backend.RKNPU2] else backends
  let backends :=
    if flags.ENABLE_HORIZON_BACKEND then backends ++ [Backend.HORIZONNPU] else backends
  let backends :=
    if flags.ENABLE_SOPHGO_BACKEND then backends ++ [Backend.SOPHGOTPU] else backends
  backends

/-- Check if the inference backend is available (`IsBackendAvailable`). -/
def IsBackendAvailable (flags : BuildFlags) (backend : Backend) : Bool :=
  let backends := GetAvailableBackends flags
  scan backends backend

/-! ## runtime_option.h -/

/-- The enumeration `rknpu2::CpuName`; its declaration
(`backends/rknpu2/option.h`) is not among the sources, a value is kept as its
underlying integer. -/
abbrev rknpu2.CpuName := Int

/-- The enumeration `rknpu2::CoreMask`; its declaration
(`backends/rknpu2/option.h`) is not among the sources, a value is kept as its
underlying integer. -/
abbrev rknpu2.CoreMask := Int

/-- The members of `OrtBackendOption` that the runtime option writes. -/
structure OrtBackendOption where
  intra_op_num_threads : Int
  graph_optimization_level : Int
  deriving DecidableEq, Repr

/-- The members of `TrtBackendOption` that the runtime option writes. -/
structure TrtBackendOption where
  max_workspace_size : Nat
  max_batch_size : Nat
  enable_fp16 : Bool
  serialize_file : String
  deriving DecidableEq, Repr

/-- The members of `OpenVINOBackendOption` that the runtime option writes. -/
structure OpenVINOBackendOption where
  cpu_thread_num : Int
  num_streams : Int
  shape_infos : List (String × List Int)
  deriving DecidableEq, Repr

/-- The members of `RKNPU2BackendOption` that the runtime option writes. -/
structure RKNPU2BackendOption where
  cpu_name : rknpu2.CpuName
  core_mask : rknpu2.CoreMask
  deriving DecidableEq, Repr

/-- The members of `benchmark::BenchmarkOption` that the runtime option writes. -/
structure BenchmarkOption where
  enable_profile : Bool
  warmup : Int
  repeats : Int
  include_h2d_d2h : Bool
  deriving DecidableEq, Repr

/-- Option object used when creating a new Runtime object
(`struct RuntimeOption`), with the in-class initializers of the header.
`external_stream_` is a `void*`, kept as an address with `0` for `nullptr`. -/
structure RuntimeOption where
  ort_option : OrtBackendOption
  trt_option : TrtBackendOption
  openvino_option : OpenVINOBackendOption
  rknpu2_option : RKNPU2BackendOption
  benchmark_option : BenchmarkOption
  enable_valid_backend_check : Bool := true
  model_file : String := ""
  params_file : String := ""
  model_from_memory_ : Bool := false
  model_format : ModelFormat := ModelFormat.ONNX
  encryption_key_ : String := ""
  cpu_thread_num : Int := -1
  device_id : Int := 0
  backend : Backend := Backend.UNKNOWN
  device : Device := Device.CPU
  external_stream_ : Nat := 0
  enable_pinned_memory : Bool := false
  deriving DecidableEq, Repr

/-- The outcome of a `RuntimeOption` member function that may stop in
`FDASSERT`: the updated object, or the message of the failed assertion with
the object as it was at that point. -/
abbrev Outcome := Except (String × RuntimeOption) RuntimeOption

/-- Modelled from the spec: the macro `FDASSERT(condition, message)` of
`fastdeploy/utils/utils.h`, which is not among the sources.  An engine absent
from the build "must fail at configuration-resolution time with a
distinguishable error", "surfaced immediately": a false condition ends the
call there with the message, a true one lets it go on. -/
def FDASSERT (condition : Bool) (message : String) (self : RuntimeOption) : Outcome :=
  if condition then Except.ok self else Except.error (message, self)

/-! ## runtime_option.cc -/

/-- Set ONNX Runtime as inference backend (`RuntimeOption::UseOrtBackend`). -/
def RuntimeOption.UseOrtBackend (flags : BuildFlags) (self : RuntimeOption) : Outcome :=
  if flags.ENABLE_ORT_BACKEND then
    Except.ok { self with backend := Backend.ORT }
  else
    FDASSERT false "The FastDeploy didn't compile with OrtBackend." self

/-- Set SOPHGO Runtime as inference backend (`RuntimeOption::UseSophgoBackend`). -/
def RuntimeOption.UseSophgoBackend (flags : BuildFlags) (self : RuntimeOption) : Outcome :=
  if flags.ENABLE_SOPHGO_BACKEND then
    Except.ok { self with backend := Backend.SOPHGOTPU }
  else
    FDASSERT false "The FastDeploy didn't compile with SophgoBackend." self

/-- Set TensorRT as inference backend (`RuntimeOption::UseTrtBackend`). -/
def RuntimeOption.UseTrtBackend (flags : BuildFlags) (self : RuntimeOption) : Outcome :=
  if flags.ENABLE_TRT_BACKEND then
    Except.ok { self with backend := Backend.TRT }
  else
    FDASSERT false "The FastDeploy didn't compile with TrtBackend." self

/-- Set OpenVINO as inference backend (`RuntimeOption::UseOpenVINOBackend`). -/
def RuntimeOption.UseOpenVINOBackend (flags : BuildFlags) (self : RuntimeOption) : Outcome :=
  if flags.ENABLE_OPENVINO_BACKEND then
    Except.ok { self with backend := Backend.OPENVINO }
  else
    FDASSERT false "The FastDeploy didn't compile with OpenVINO." self

/-- Set the Horizon NPU engine as inference backend
(`RuntimeOption::UseHorizonNPUBackend`). -/
def RuntimeOption.UseHorizonNPUBackend (flags : BuildFlags) (self : RuntimeOption) : Outcome :=
  if flags.ENABLE_HORIZON_BACKEND then
    Except.ok { self with backend := Backend.HORIZONNPU }
  else
    FDASSERT false "The FastDeploy didn't compile with horizon" self

/-- Set path of model file and parameter file (`RuntimeOption::SetModelPath`). -/
def RuntimeOption.SetModelPath (self : RuntimeOption) (model_path params_path : String)
    (format : ModelFormat) : RuntimeOption :=
  let self := { self with model_file := model_path }
  let self := { self with params_file := params_path }
  let self := { self with model_format := format }
  { self with model_from_memory_ := false }

/-- Specify the memory buffer of model and parameter
(`RuntimeOption::SetModelBuffer`). -/
def RuntimeOption.SetModelBuffer (self : RuntimeOption) (model_buffer params_buffer : String)
    (format : ModelFormat) : RuntimeOption :=
  let self := { self with model_file := model_buffer }
  let self := { self with params_file := params_buffer }
  let self := { self with model_format := format }
  { self with model_from_memory_ := true }

/-- Use Nvidia GPU to inference (`RuntimeOption::UseGpu`).  The `FDWARNING`
line of the branch without `WITH_GPU` does not touch the object and is not
kept. -/
def RuntimeOption.UseGpu (flags : BuildFlags) (self : RuntimeOption) (gpu_id : Int) :
    RuntimeOption :=
  if flags.WITH_GPU then
    let self := { self with device := Device.GPU }
    { self with device_id := gpu_id }
  else
    { self with device := Device.CPU }

/-- Use cpu to inference (`RuntimeOption::UseCpu`). -/
def RuntimeOption.UseCpu (self : RuntimeOption) : RuntimeOption :=
  { self with device := Device.CPU }

/-- Use RKNPU2 to inference (`RuntimeOption::UseRKNPU2`). -/
def RuntimeOption.UseRKNPU2 (self : RuntimeOption) (rknpu2_name : rknpu2.CpuName)
    (rknpu2_core : rknpu2.CoreMask) : RuntimeOption :=
  let self := { self with rknpu2_option := { self.rknpu2_option with cpu_name := rknpu2_name } }
  let self := { self with rknpu2_option := { self.rknpu2_option with core_mask := rknpu2_core } }
  { self with device := Device.RKNPU }

/-- Use Horizon NPU to inference (`RuntimeOption::UseHorizon`). -/
def RuntimeOption.UseHorizon (self : RuntimeOption) : RuntimeOption :=
  { self with device := Device.SUNRISENPU }

/-- The removed Graphcore IPU selector (`RuntimeOption::UseIpu`): it warns and
forces the CPU; none of its four arguments is read. -/
def RuntimeOption.UseIpu (self : RuntimeOption) (_device_num _micro_batch_size : Int)
    (_enable_pipelining : Bool) (_batches_per_step : Int) : RuntimeOption :=
  { self with device := Device.CPU }

/-- Use Sophgo to inference (`RuntimeOption::UseSophgo`): the device is written
first, then `UseSophgoBackend()` is called. -/
def RuntimeOption.UseSophgo (flags : BuildFlags) (self : RuntimeOption) : Outcome :=
  let self := { self with device := Device.SOPHGOTPUD }
  self.UseSophgoBackend flags

/-- Set number of cpu threads (`RuntimeOption::SetCpuThreadNum`). -/
def RuntimeOption.SetCpuThreadNum (self : RuntimeOption) (thread_num : Int) : Outcome := do
  let self ← FDASSERT (decide (thread_num > 0)) "The thread_num must be greater than 0." self
  let self := { self with cpu_thread_num := thread_num }
  let self :=
    { self with ort_option := { self.ort_option with intra_op_num_threads := thread_num } }
  let self :=
    { self with openvino_option := { self.openvino_option with cpu_thread_num := thread_num } }
  pure self

/-- The deprecated `RuntimeOption::SetOrtGraphOptLevel`: `std::find` over
`supported_level{-1, 0, 1, 2}`, the assertion on its outcome, then the
assignment.  The `FDWARNING` line does not touch the object and is not kept. -/
def RuntimeOption.SetOrtGraphOptLevel (self : RuntimeOption) (level : Int) : Outcome := do
  let supported_level : List Int := [-1, 0, 1, 2]
  let valid_level := (supported_level.find? (fun x => decide (x = level))).isSome
  let self ← FDASSERT valid_level "The level must be -1, 0, 1, 2." self
  let self :=
    { self with ort_option := { self.ort_option with graph_optimization_level := level } }
  pure self

/-! ## The resolver's default choice -/

/-- Modelled from the spec: the resolver's choice when no explicit engine was
set (the resolver, `runtime.cc`, is not among the sources): "pick the first
entry of PermittedEngines(device) intersected with PermittedEngines(format)",
that is the first entry of the device's list that also occurs in the format's
list; `none` when a key is not registered or the lists share no engine. -/
def DefaultBackend (format : ModelFormat) (device : Device) : Option Backend :=
  match find s_default_backends_by_device device, find s_default_backends_by_format format with
  | some by_device, some by_format => by_device.find? (fun b => scan by_format b)
  | _, _ => none

/-! ## vision/classification/ppshitu/ppshituv2_rec.cc

The pipeline `PPShiTuV2Recognizer`.  Its preprocessor, its postprocessor and
the runtime behind `Infer` and `InputInfoOfRuntime` are collaborators whose
code is not among the sources: they are parameters of the model (`Externals`),
each a function of a collaborator state `σ`, of its arguments and of the
previous content of the buffer it writes.  `Mat` stands for `FDMat`, `Result`
for `ClassifyResult`, and `τ` for the members of `FDTensor` other than `name`.
Each call of a collaborator is also recorded, in order, in `calls`.
Indexing an empty `std::vector` with `[0]` is undefined behaviour: the model
then gives `none`.
-/

/-- The tensor type `FDTensor`: the member `name`, which the pipeline writes,
and all its other members (`rest`). -/
structure FDTensor (τ : Type) where
  name : String
  rest : τ
  deriving DecidableEq, Repr

/-- What a collaborator call leaves: the returned `bool`, the collaborator
state, and the content of the buffer behind its pointer argument. -/
structure Ran (σ β : Type) where
  ret : Bool
  state : σ
  written : β

/-- The collaborators of `PPShiTuV2Recognizer`. -/
structure Externals (σ Mat τ Result : Type) where
  /-- The call `preprocessor_.Run(&fd_mats, &reused_input_tensors_)`; `fd_mats` is a local
  copy that is not read again, so only the tensors are returned. -/
  preprocessor_Run : σ → List Mat → List (FDTensor τ) → Ran σ (List (FDTensor τ))
  /-- The member `name` of `InputInfoOfRuntime(index)`. -/
  InputInfoOfRuntime : σ → Nat → String
  /-- The call `Infer(reused_input_tensors_, &reused_output_tensors_)`: the input tensors
  are read, the output buffer is written. -/
  Infer : σ → List (FDTensor τ) → List (FDTensor τ) → Ran σ (List (FDTensor τ))
  /-- The call `postprocessor_.Run(reused_output_tensors_, results)`. -/
  postprocessor_Run : σ → List (FDTensor τ) → List Result → Ran σ (List Result)

/-- The three stages of the pipeline. -/
inductive Stage where
  | preprocess
  | infer
  | postprocess
  deriving DecidableEq, Repr

/-- One recorded call of a collaborator: the stage, the tensors handed to it
(the reused input tensors for `Infer`, the reused output tensors for the
postprocessor, none for the preprocessor) and the `bool` it returned. -/
structure Call (τ : Type) where
  stage : Stage
  tensors : List (FDTensor τ)
  ret : Bool
  deriving DecidableEq, Repr

/-- The members of `PPShiTuV2Recognizer` that `BatchPredict` reads and writes. -/
structure PPShiTuV2Recognizer (σ τ : Type) where
  /-- The state of `preprocessor_`, `postprocessor_` and the runtime. -/
  collaborators : σ
  reused_input_tensors_ : List (FDTensor τ)
  reused_output_tensors_ : List (FDTensor τ)

/-- What a call of `Predict` or `BatchPredict` leaves: the returned `bool`, the
object, the content behind the caller's pointer (`*results` or `*result`) and
the collaborator calls made, in order. -/
structure Returned (σ τ ρ : Type) where
  ret : Bool
  self : PPShiTuV2Recognizer σ τ
  out : ρ
  calls : List (Call τ)

/-- The member function
`PPShiTuV2Recognizer::BatchPredict(const std::vector<FDMat>& mats, std::vector<ClassifyResult>* results)`;
`results` is the content of the caller's vector before the call. -/
def PPShiTuV2Recognizer.BatchPredict {σ Mat τ Result : Type} (ext : Externals σ Mat τ Result)
    (self : PPShiTuV2Recognizer σ τ) (mats : List Mat) (results : List Result) :
    Option (Returned σ τ (List Result)) :=
  let fd_mats := mats
  let pre := ext.preprocessor_Run self.collaborators fd_mats self.reused_input_tensors_
  let self := { self with collaborators := pre.state, reused_input_tensors_ := pre.written }
  let calls := [Call.mk Stage.preprocess [] pre.ret]
  if !pre.ret then
    some ⟨false, self, results, calls⟩
  else
    match self.reused_input_tensors_ with
    | [] => none
    | first :: others =>
      let first := { first with name := ext.InputInfoOfRuntime self.collaborators 0 }
      let self := { self with reused_input_tensors_ := first :: others }
      let inf := ext.Infer self.collaborators self.reused_input_tensors_
        self.reused_output_tensors_
      let calls := calls ++ [Call.mk Stage.infer self.reused_input_tensors_ inf.ret]
      let self := { self with collaborators := inf.state, reused_output_tensors_ := inf.written }
      if !inf.ret then
        some ⟨false, self, results, calls⟩
      else
        let post := ext.postprocessor_Run self.collaborators self.reused_output_tensors_ results
        let calls := calls ++ [Call.mk Stage.postprocess self.reused_output_tensors_ post.ret]
        let self := { self with collaborators := post.state }
        let results := post.written
        if !post.ret then
          some ⟨false, self, results, calls⟩
        else
          some ⟨true, self, results, calls⟩

/-- The member function
`PPShiTuV2Recognizer::Predict(const FDMat& mat, ClassifyResult* result)`;
`result` is the content behind the caller's pointer before the call. -/
def PPShiTuV2Recognizer.Predict {σ Mat τ Result : Type} (ext : Externals σ Mat τ Result)
    (self : PPShiTuV2Recognizer σ τ) (mat : Mat) (result : Result) :
    Option (Returned σ τ Result) :=
  let results : List Result := []
  let mats := [mat]
  match self.BatchPredict ext mats results with
  | none => none
  | some batch =>
    if !batch.ret then
      some ⟨false, batch.self, result, batch.calls⟩
    else
      match batch.out with
      | [] => none
      | first :: _ => some ⟨true, batch.self, first, batch.calls⟩

/-- Modelled from the spec: the contract of the three collaborators
(preprocessor, runtime, postprocessor), whose code is not among the sources:
"batch size of the result list must equal batch size of the input list,
element-for-element".  `rows_in` and `rows_out` read the per-image rows of the
input and output tensors from the members other than `name`; a stage that
returns true relates its input rows to its output rows one by one. -/
structure ElementForElement {σ Mat τ Result ρ₁ ρ₂ : Type} (ext : Externals σ Mat τ Result)
    (rows_in : List τ → List ρ₁) (rows_out : List τ → List ρ₂)
    (P : Mat → ρ₁ → Prop) (E : ρ₁ → ρ₂ → Prop) (Q : ρ₂ → Result → Prop) : Prop where
  preprocess : ∀ s mats buffer, (ext.preprocessor_Run s mats buffer).ret = true →
    List.Forall₂ P mats
      (rows_in ((ext.preprocessor_Run s mats buffer).written.map FDTensor.rest))
  infer : ∀ s inputs buffer, (ext.Infer s inputs buffer).ret = true →
    List.Forall₂ E (rows_in (inputs.map FDTensor.rest))
      (rows_out ((ext.Infer s inputs buffer).written.map FDTensor.rest))
  postprocess : ∀ s outputs results, (ext.postprocessor_Run s outputs results).ret = true →
    List.Forall₂ Q (rows_out (outputs.map FDTensor.rest))
      (ext.postprocessor_Run s outputs results).written

/-- Collaborators for the examples, with one input tensor: an image is a
number, the preprocessor packs the batch into one tensor, the runtime adds one
to every row, the postprocessor writes one result per row; the three flags are
the values the three stages return. -/
def oneInputExternals (pre_ok infer_ok post_ok : Bool) : Externals Unit Nat (List Nat) Nat where
  preprocessor_Run := fun s mats _ => ⟨pre_ok, s, [⟨"", mats⟩]⟩
  InputInfoOfRuntime := fun _ _ => "x"
  Infer := fun s inputs _ =>
    ⟨infer_ok, s, inputs.map (fun t => ⟨"y", t.rest.map (fun v => v + 1)⟩)⟩
  postprocessor_Run := fun s outputs _ => ⟨post_ok, s, (outputs.map FDTensor.rest).flatten⟩

/-- Collaborators for the examples, with two input tensors: the preprocessor
writes the tensors "a" and "b", the runtime declares the inputs "x" and
"im_shape". -/
def twoInputExternals : Externals Unit Nat (List Nat) Nat where
  preprocessor_Run := fun s mats _ => ⟨true, s, [⟨"a", mats⟩, ⟨"b", mats⟩]⟩
  InputInfoOfRuntime := fun _ index => if index = 0 then "x" else "im_shape"
  Infer := fun s inputs _ => ⟨true, s, inputs.take 1⟩
  postprocessor_Run := fun s outputs _ => ⟨true, s, (outputs.map FDTensor.rest).flatten⟩

/-- Collaborators for the examples whose runtime checks the names it is
handed: the preprocessor writes one tensor under the name "", the runtime
declares the input "x", and `Infer` returns true only when it is handed
exactly one tensor named "x", which it writes to the output buffer. -/
def nameCheckingExternals : Externals Unit Nat (List Nat) Nat where
  preprocessor_Run := fun s mats _ => ⟨true, s, [⟨"", mats⟩]⟩
  InputInfoOfRuntime := fun _ _ => "x"
  Infer := fun s inputs _ => ⟨decide (inputs.map FDTensor.name = ["x"]), s, inputs⟩
  postprocessor_Run := fun s outputs _ => ⟨true, s, (outputs.map FDTensor.rest).flatten⟩

/-- A recognizer whose reused buffers are still empty. -/
def freshRecognizer : PPShiTuV2Recognizer Unit (List Nat) := ⟨(), [], []⟩

/-- The stage and the returned `bool` of each recorded call. -/
def trace {τ : Type} (calls : List (Call τ)) : List (Stage × Bool) :=
  calls.map (fun c => (c.stage, c.ret))

/-! ## The constructors of the models

`PPShiTuV2Recognizer::PPShiTuV2Recognizer` (ppshituv2_rec.cc) and
`BasicVSR::BasicVSR` (basicvsr.cc), up to the last statement before
`initialized = Initialize()`: `Initialize` runs `InitRuntime`, whose code is not
among the sources.
-/

/-- The members of the base class `FastDeployModel` that the two constructors
write.  The class (fastdeploy_model.h) is not among the sources: the object a
constructor body starts from, with the initial values of the base class, is an
argument of the constructor in this model. -/
structure FastDeployModel where
  valid_cpu_backends : List Backend
  valid_gpu_backends : List Backend
  valid_ipu_backends : List Backend
  valid_ascend_backends : List Backend
  valid_rknpu_backends : List Backend
  valid_sophgonpu_backends : List Backend
  runtime_option : RuntimeOption
  deriving DecidableEq, Repr

set_option linter.dupNamespace false

/-- The body of the constructor `PPShiTuV2Recognizer::PPShiTuV2Recognizer`;
`config_file` only initialises the preprocessor. -/
def PPShiTuV2Recognizer.PPShiTuV2Recognizer (self : FastDeployModel)
    (model_file params_file _config_file : String) (custom_option : RuntimeOption)
    (model_format : ModelFormat) : FastDeployModel :=
  let self :=
    if model_format = ModelFormat.ONNX then
      let self := { self with valid_cpu_backends := [Backend.OPENVINO, Backend.ORT] }
      let self := { self with valid_gpu_backends := [Backend.ORT, Backend.TRT] }
      let self := { self with valid_ascend_backends := [] }
      { self with valid_ipu_backends := [] }
    else if model_format = ModelFormat.SOPHGO then
      { self with valid_sophgonpu_backends := [Backend.SOPHGOTPU] }
    else
      let self := { self with valid_cpu_backends := [Backend.ORT, Backend.OPENVINO] }
      let self := { self with valid_gpu_backends := [Backend.ORT, Backend.TRT] }
      { self with valid_rknpu_backends := [Backend.RKNPU2] }
  let self := { self with runtime_option := custom_option }
  let self :=
    { self with runtime_option := { self.runtime_option with model_format := model_format } }
  let self :=
    { self with runtime_option := { self.runtime_option with model_file := model_file } }
  { self with runtime_option := { self.runtime_option with params_file := params_file } }

/-- The body of the constructor `BasicVSR::BasicVSR`, which in the source
stands under the comment "unsupported ORT backend". -/
def BasicVSR.BasicVSR (self : FastDeployModel) (model_file params_file : String)
    (custom_option : RuntimeOption) (model_format : ModelFormat) : FastDeployModel :=
  let self := { self with valid_cpu_backends := [Backend.ORT, Backend.OPENVINO] }
  let self := { self with valid_gpu_backends := [Backend.TRT, Backend.ORT] }
  let self := { self with runtime_option := custom_option }
  let self :=
    { self with runtime_option := { self.runtime_option with model_format := model_format } }
  let self :=
    { self with runtime_option := { self.runtime_option with model_file := model_file } }
  { self with runtime_option := { self.runtime_option with params_file := params_file } }

/-! ## Sequences of device selectors -/

/-- A call of one of the device selectors of `RuntimeOption`, with its
arguments. -/
inductive DeviceSelector where
  | UseCpu
  | UseGpu (gpu_id : Int)
  | UseRKNPU2 (rknpu2_name : rknpu2.CpuName) (rknpu2_core : rknpu2.CoreMask)
  | UseHorizon
  | UseSophgo
  | UseIpu (device_num micro_batch_size : Int) (enable_pipelining : Bool)
      (batches_per_step : Int)
  deriving DecidableEq, Repr

/-- The call of a device selector on an option. -/
def DeviceSelector.call (flags : BuildFlags) (self : RuntimeOption) :
    DeviceSelector → Outcome
  | DeviceSelector.UseCpu => Except.ok self.UseCpu
  | DeviceSelector.UseGpu gpu_id => Except.ok (self.UseGpu flags gpu_id)
  | DeviceSelector.UseRKNPU2 rknpu2_name rknpu2_core =>
    Except.ok (self.UseRKNPU2 rknpu2_name rknpu2_core)
  | DeviceSelector.UseHorizon => Except.ok self.UseHorizon
  | DeviceSelector.UseSophgo => self.UseSophgo flags
  | DeviceSelector.UseIpu device_num micro_batch_size enable_pipelining batches_per_step =>
    Except.ok (self.UseIpu device_num micro_batch_size enable_pipelining batches_per_step)

/-- The calls of a list of device selectors one after the other on an option;
a failed assertion ends the sequence. -/
def DeviceSelector.callAll (flags : BuildFlags) : RuntimeOption → List DeviceSelector → Outcome
  | self, [] => Except.ok self
  | self, selector :: rest =>
    match selector.call flags self with
    | Except.ok self => DeviceSelector.callAll flags self rest
    | Except.error e => Except.error e

/-- The option an outcome ends with: the updated option, or the option as it
was when the assertion failed. -/
def Outcome.last : Outcome → RuntimeOption
  | Except.ok self => self
  | Except.error (_, self) => self

/-- A default-constructed `RuntimeOption` for the examples: the members with an
initializer in the header have that value, the members of the engine options,
whose defaults are not among the sources, have arbitrary values. -/
def sampleOption : RuntimeOption :=
  { ort_option := ⟨-1, -1⟩, trt_option := ⟨0, 0, false, ""⟩, openvino_option := ⟨-1, 1, []⟩,
    rknpu2_option := ⟨0, 0⟩, benchmark_option := ⟨false, 0, 0, false⟩ }

/-- A base object for the examples, with no engine listed for any device. -/
def sampleModel : FastDeployModel :=
  ⟨[], [], [], [], [], [], sampleOption⟩

/-! ## Lemmas on the lookup and the scan -/

theorem scan_eq_true_iff (l : List Backend) (b : Backend) : scan l b = true ↔ b ∈ l := by
  induction l with
  | nil => simp [scan]
  | cons x rest ih =>
    by_cases hx : x = b
    · simp [scan, hx]
    · have hb : ¬ b = x := fun h => hx h.symm
      simp [scan, hx, hb, ih]

theorem mem_of_find_eq_some {κ β : Type} [DecidableEq κ] (t : List (κ × β)) (k : κ) (v : β)
    (h : find t k = some v) : (k, v) ∈ t := by
  induction t with
  | nil => simp [find] at h
  | cons e rest ih =>
    obtain ⟨k', v'⟩ := e
    by_cases hk : k' = k
    · simp [find, hk] at h
      simp [hk, h]
    · simp [find, hk] at h
      exact List.mem_cons_of_mem _ (ih h)

theorem find_eq_some_of_mem {κ β : Type} [DecidableEq κ] (t : List (κ × β)) (k : κ) (v : β)
    (hnodup : (t.map Prod.fst).Nodup) (h : (k, v) ∈ t) : find t k = some v := by
  induction t with
  | nil => simp at h
  | cons e rest ih =>
    obtain ⟨k', v'⟩ := e
    simp only [List.map_cons, List.nodup_cons] at hnodup
    rcases List.mem_cons.mp h with heq | hrest
    · cases heq
      simp [find]
    · have hk : ¬ k' = k := by
        intro hkk
        apply hnodup.1
        rw [hkk]
        exact List.mem_map_of_mem Prod.fst hrest
      simp [find, hk, ih hnodup.2 hrest]

theorem format_keys_nodup : (s_default_backends_by_format.map Prod.fst).Nodup := by decide

theorem device_keys_nodup : (s_default_backends_by_device.map Prod.fst).Nodup := by decide

theorem find_format_iff (f : ModelFormat) (l : List Backend) :
    find s_default_backends_by_format f = some l ↔ (f, l) ∈ s_default_backends_by_format :=
  ⟨mem_of_find_eq_some _ f l, find_eq_some_of_mem _ f l format_keys_nodup⟩

theorem find_device_iff (d : Device) (l : List Backend) :
    find s_default_backends_by_device d = some l ↔ (d, l) ∈ s_default_backends_by_device :=
  ⟨mem_of_find_eq_some _ d l, find_eq_some_of_mem _ d l device_keys_nodup⟩

theorem format_supported_result (f : ModelFormat) (b : Backend) :
    (f.Supported b).result = true ↔
      ∃ l, find s_default_backends_by_format f = some l ∧ b ∈ l := by
  unfold ModelFormat.Supported
  cases hfind : find s_default_backends_by_format f with
  | none => simp
  | some second =>
    by_cases hs : scan second b = true
    · simp [hs, (scan_eq_true_iff second b).mp hs]
    · have hb : b ∉ second := fun h => hs ((scan_eq_true_iff second b).mpr h)
      simp [hs, hb]

theorem device_supported_result (d : Device) (b : Backend) :
    (d.Supported b).result = true ↔
      ∃ l, find s_default_backends_by_device d = some l ∧ b ∈ l := by
  unfold Device.Supported
  cases hfind : find s_default_backends_by_device d with
  | none => simp
  | some second =>
    by_cases hs : scan second b = true
    · simp [hs, (scan_eq_true_iff second b).mp hs]
    · have hb : b ∉ second := fun h => hs ((scan_eq_true_iff second b).mpr h)
      simp [hs, hb]

/-! ## The capability matrix -/

/-- C1: `Supported(f, b)` returns true exactly when
`s_default_backends_by_format` has an entry for `f` whose list contains `b`,
and `Supported(d, b)` returns true exactly when `s_default_backends_by_device`
has an entry for `d` whose list contains `b`; in every other case the result is
false. -/
theorem Supported_iff_listed (f : ModelFormat) (d : Device) (b : Backend) :
    (((f.Supported b).result = true ↔
        ∃ l, (f, l) ∈ s_default_backends_by_format ∧ b ∈ l) ∧
      ((f.Supported b).result = false ↔
        ¬ ∃ l, (f, l) ∈ s_default_backends_by_format ∧ b ∈ l)) ∧
    (((d.Supported b).result = true ↔
        ∃ l, (d, l) ∈ s_default_backends_by_device ∧ b ∈ l) ∧
      ((d.Supported b).result = false ↔
        ¬ ∃ l, (d, l) ∈ s_default_backends_by_device ∧ b ∈ l)) := by
  have hf : (f.Supported b).result = true ↔
      ∃ l, (f, l) ∈ s_default_backends_by_format ∧ b ∈ l := by
    rw [format_supported_result]
    exact exists_congr fun l => and_congr_left fun _ => find_format_iff f l
  have hd : (d.Supported b).result = true ↔
      ∃ l, (d, l) ∈ s_default_backends_by_device ∧ b ∈ l := by
    rw [device_supported_result]
    exact exists_congr fun l => and_congr_left fun _ => find_device_iff d l
  refine ⟨⟨hf, ?_⟩, ⟨hd, ?_⟩⟩
  · rw [← hf]; simp
  · rw [← hd]; simp

/-- C2: whenever `Supported(f, b)` (resp. `Supported(d, b)`) returns false for
a format `f` (resp. device `d`) that has an entry in its table, the list of
alternatives written into the diagnostic is exactly the configured list of that
entry, and as a set it equals the permitted engines of `f` (resp. `d`): an
engine is listed iff `Supported` accepts it. -/
theorem diagnostic_lists_configured_set (f : ModelFormat) (d : Device) (b : Backend)
    (lf ld : List Backend) (hf : (f, lf) ∈ s_default_backends_by_format)
    (hd : (d, ld) ∈ s_default_backends_by_device) :
    ((f.Supported b).result = false →
      (f.Supported b).error = some (Diagnostic.format_only_supports b lf f) ∧
        ∀ x, x ∈ lf ↔ (f.Supported x).result = true) ∧
    ((d.Supported b).result = false →
      (d.Supported b).error = some (Diagnostic.device_only_supports b ld d) ∧
        ∀ x, x ∈ ld ↔ (d.Supported x).result = true) := by
  have hf' := (find_format_iff f lf).mpr hf
  have hd' := (find_device_iff d ld).mpr hd
  constructor
  · intro hres
    constructor
    · unfold ModelFormat.Supported at hres ⊢
      rw [hf'] at hres ⊢
      by_cases hs : scan lf b = true
      · simp [hs] at hres
      · simp [hs]
    · intro x
      rw [format_supported_result, hf']
      simp
  · intro hres
    constructor
    · unfold Device.Supported at hres ⊢
      rw [hd'] at hres ⊢
      by_cases hs : scan ld b = true
      · simp [hs] at hres
      · simp [hs]
    · intro x
      rw [device_supported_result, hd']
      simp

/-- Witness of C2: `Supported(ONNX, RKNPU2)` and `Supported(CPU, RKNPU2)` both
fail and list the configured engines of their entry. -/
theorem diagnostic_lists_configured_set_witness :
    (ModelFormat.ONNX.Supported Backend.RKNPU2).error =
        some (Diagnostic.format_only_supports Backend.RKNPU2
          [Backend.ORT, Backend.OPENVINO, Backend.TRT] ModelFormat.ONNX) ∧
      (Device.CPU.Supported Backend.RKNPU2).error =
        some (Diagnostic.device_only_supports Backend.RKNPU2
          [Backend.ORT, Backend.OPENVINO] Device.CPU) :=
  have h := diagnostic_lists_configured_set ModelFormat.ONNX Device.CPU Backend.RKNPU2
    [Backend.ORT, Backend.OPENVINO, Backend.TRT] [Backend.ORT, Backend.OPENVINO]
    (by decide) (by decide)
  ⟨(h.1 (by decide)).1, (h.2 (by decide)).1⟩

/-- C3: a format that is not registered is reported as a configuration error
and not as an empty permitted set: `Supported(AUTOREC, b)` returns false
through the "not registered" branch for every `b`; that branch is taken for
`AUTOREC` only and is never the branch that lists a permitted set; `AUTOREC`
is the only `ModelFormat` value without an entry, `ONNX`, `RKNN`, `SOPHGO` and
`HORIZON` each have one. -/
theorem unregistered_format_is_configuration_error :
    (∀ b : Backend, ModelFormat.AUTOREC.Supported b =
        ⟨false, some Diagnostic.format_not_registered⟩) ∧
    (∀ (b b' : Backend) (l : List Backend) (f : ModelFormat),
        (ModelFormat.AUTOREC.Supported b).error ≠
          some (Diagnostic.format_only_supports b' l f)) ∧
    (∀ (f : ModelFormat) (b : Backend),
        (f.Supported b).error = some Diagnostic.format_not_registered ↔
          f = ModelFormat.AUTOREC) ∧
    (∀ f : ModelFormat,
        find s_default_backends_by_format f = none ↔ f = ModelFormat.AUTOREC) ∧
    (∀ f : ModelFormat,
        (∃ l, (f, l) ∈ s_default_backends_by_format) ↔ f ≠ ModelFormat.AUTOREC) := by
  refine ⟨?_, ?_, ?_, ?_, ?_⟩
  · intro b
    rfl
  · intro b b' l f h
    have hb : (ModelFormat.AUTOREC.Supported b).error =
        some Diagnostic.format_not_registered := rfl
    rw [hb] at h
    cases h
  · intro f b
    cases f <;> cases b <;> decide
  · intro f
    cases f <;> decide
  · intro f
    constructor
    · rintro ⟨l, hl⟩ hf
      subst hf
      have := (find_format_iff _ l).mpr hl
      cases this
    · intro hf
      cases hfind : find s_default_backends_by_format f with
      | none =>
        exfalso
        revert hfind
        cases f
        · exact absurd rfl hf
        all_goals decide
      | some l => exact ⟨l, (find_format_iff f l).mp hfind⟩

/-- C4: over all formats `f` and all devices `d`, the set of engines `b` with
`Supported(f, b)` and `Supported(d, b)` is non-empty exactly for the five
deployable pairs (ONNX, CPU), (ONNX, GPU), (RKNN, RKNPU), (HORIZON, SUNRISENPU)
and (SOPHGO, SOPHGOTPUD), and is empty for every other pair. -/
theorem common_engine_iff_deployable_pair (f : ModelFormat) (d : Device) :
    (∃ b : Backend, (f.Supported b).result = true ∧ (d.Supported b).result = true) ↔
      ((f = ModelFormat.ONNX ∧ d = Device.CPU) ∨
        (f = ModelFormat.ONNX ∧ d = Device.GPU) ∨
        (f = ModelFormat.RKNN ∧ d = Device.RKNPU) ∨
        (f = ModelFormat.HORIZON ∧ d = Device.SUNRISENPU) ∨
        (f = ModelFormat.SOPHGO ∧ d = Device.SOPHGOTPUD)) := by
  cases f <;> cases d <;> decide

/-- C5: with no explicit engine, the first entry of the device's list that also
occurs in the format's list is a function of (format, device) alone (one pair
never has two picks, and a pick is permitted for both the format and the
device); it is `Backend::ORT` both for (ONNX, CPU) and for (ONNX, GPU), and on
a build where, of the six engine flags, only `ENABLE_ORT_BACKEND` is defined
`IsBackendAvailable` reports that engine available. -/
theorem default_backend_of_onnx_is_ort :
    (∀ (f : ModelFormat) (d : Device) (b b' : Backend),
        DefaultBackend f d = some b → DefaultBackend f d = some b' → b = b') ∧
    (∀ (f : ModelFormat) (d : Device) (b : Backend), DefaultBackend f d = some b →
        (f.Supported b).result = true ∧ (d.Supported b).result = true) ∧
    DefaultBackend ModelFormat.ONNX Device.CPU = some Backend.ORT ∧
    DefaultBackend ModelFormat.ONNX Device.GPU = some Backend.ORT ∧
    (∀ with_gpu encryption : Bool,
        GetAvailableBackends ⟨true, false, false, false, false, false, with_gpu, encryption⟩ =
            [Backend.ORT] ∧
          IsBackendAvailable ⟨true, false, false, false, false, false, with_gpu, encryption⟩
            Backend.ORT = true) := by
  refine ⟨?_, ?_, rfl, rfl, ?_⟩
  · intro f d b b' h h'
    rw [h] at h'
    exact Option.some.inj h'
  · intro f d b
    cases f <;> cases d <;> cases b <;> decide
  · intro with_gpu encryption
    exact ⟨rfl, rfl⟩

/-- Witness of C5: the pick for (ONNX, CPU) is permitted for the format and for
the device. -/
theorem default_backend_of_onnx_is_ort_witness :
    (ModelFormat.ONNX.Supported Backend.ORT).result = true ∧
      (Device.CPU.Supported Backend.ORT).result = true :=
  default_backend_of_onnx_is_ort.2.1 ModelFormat.ONNX Device.CPU Backend.ORT rfl

/-- C6: the capability tables agree with the documented scope of the
general-purpose engines: `Supported(d, TRT)` iff `d = GPU`,
`Supported(d, OPENVINO)` iff `d = CPU`, `Supported(d, ORT)` iff `d` is CPU or
GPU; and each of ORT, TRT, OPENVINO is supported for a format `f` iff
`f = ONNX`. -/
theorem general_purpose_engines_scope (d : Device) (f : ModelFormat) :
    ((d.Supported Backend.TRT).result = true ↔ d = Device.GPU) ∧
    ((d.Supported Backend.OPENVINO).result = true ↔ d = Device.CPU) ∧
    ((d.Supported Backend.ORT).result = true ↔ d = Device.CPU ∨ d = Device.GPU) ∧
    ((f.Supported Backend.ORT).result = true ↔ f = ModelFormat.ONNX) ∧
    ((f.Supported Backend.TRT).result = true ↔ f = ModelFormat.ONNX) ∧
    ((f.Supported Backend.OPENVINO).result = true ↔ f = ModelFormat.ONNX) := by
  cases d <;> cases f <;> decide

/-- C7: each NPU engine is dedicated to exactly one format and one device:
RKNPU2 to RKNN and RKNPU, SOPHGOTPU to SOPHGO and SOPHGOTPUD, HORIZONNPU to
HORIZON and SUNRISENPU; and the permitted lists of the devices RKNPU,
SOPHGOTPUD and SUNRISENPU are singletons holding their dedicated engine. -/
theorem npu_engines_are_dedicated (f : ModelFormat) (d : Device) :
    ((f.Supported Backend.RKNPU2).result = true ↔ f = ModelFormat.RKNN) ∧
    ((d.Supported Backend.RKNPU2).result = true ↔ d = Device.RKNPU) ∧
    ((f.Supported Backend.SOPHGOTPU).result = true ↔ f = ModelFormat.SOPHGO) ∧
    ((d.Supported Backend.SOPHGOTPU).result = true ↔ d = Device.SOPHGOTPUD) ∧
    ((f.Supported Backend.HORIZONNPU).result = true ↔ f = ModelFormat.HORIZON) ∧
    ((d.Supported Backend.HORIZONNPU).result = true ↔ d = Device.SUNRISENPU) ∧
    find s_default_backends_by_device Device.RKNPU = some [Backend.RKNPU2] ∧
    find s_default_backends_by_device Device.SOPHGOTPUD = some [Backend.SOPHGOTPU] ∧
    find s_default_backends_by_device Device.SUNRISENPU = some [Backend.HORIZONNPU] ∧
    (∀ b : Backend, (Device.RKNPU.Supported b).result = true ↔ b = Backend.RKNPU2) ∧
    (∀ b : Backend, (Device.SOPHGOTPUD.Supported b).result = true ↔ b = Backend.SOPHGOTPU) ∧
    (∀ b : Backend, (Device.SUNRISENPU.Supported b).result = true ↔ b = Backend.HORIZONNPU) := by
  cases f <;> cases d <;> decide

/-! ## Engines compiled into the build -/

/-- C8: for every assignment of the build flags, `GetAvailableBackends` returns
a duplicate-free list that contains a backend iff its flag is defined, in the
fixed relative order ORT, TRT, OPENVINO, RKNPU2, HORIZONNPU, SOPHGOTPU, and
never contains `Backend::UNKNOWN`; it is empty exactly on a build with zero
compiled engines. -/
theorem GetAvailableBackends_lists_compiled_engines (flags : BuildFlags) :
    (GetAvailableBackends flags).Nodup ∧
    (Backend.ORT ∈ GetAvailableBackends flags ↔ flags.ENABLE_ORT_BACKEND = true) ∧
    (Backend.TRT ∈ GetAvailableBackends flags ↔ flags.ENABLE_TRT_BACKEND = true) ∧
    (Backend.OPENVINO ∈ GetAvailableBackends flags ↔
      flags.ENABLE_OPENVINO_BACKEND = true) ∧
    (Backend.RKNPU2 ∈ GetAvailableBackends flags ↔ flags.ENABLE_RKNPU2_BACKEND = true) ∧
    (Backend.HORIZONNPU ∈ GetAvailableBackends flags ↔
      flags.ENABLE_HORIZON_BACKEND = true) ∧
    (Backend.SOPHGOTPU ∈ GetAvailableBackends flags ↔ flags.ENABLE_SOPHGO_BACKEND = true) ∧
    List.Sublist (GetAvailableBackends flags)
      [Backend.ORT, Backend.TRT, Backend.OPENVINO, Backend.RKNPU2, Backend.HORIZONNPU,
        Backend.SOPHGOTPU] ∧
    Backend.UNKNOWN ∉ GetAvailableBackends flags ∧
    (GetAvailableBackends flags = [] ↔
      (flags.ENABLE_ORT_BACKEND = false ∧ flags.ENABLE_TRT_BACKEND = false ∧
        flags.ENABLE_OPENVINO_BACKEND = false ∧ flags.ENABLE_RKNPU2_BACKEND = false ∧
        flags.ENABLE_HORIZON_BACKEND = false ∧ flags.ENABLE_SOPHGO_BACKEND = false)) := by
  obtain ⟨ort, trt, openvino, rknpu2, horizon, sophgo, gpu, encryption⟩ := flags
  cases ort <;> cases trt <;> cases openvino <;> cases rknpu2 <;> cases horizon <;>
    cases sophgo <;> cases gpu <;> cases encryption <;> decide

/-- C9: for every backend `b` and every build configuration,
`IsBackendAvailable(b)` returns true iff `b` is an element of
`GetAvailableBackends()`; hence `IsBackendAvailable(Backend::UNKNOWN)` is false
on every build. -/
theorem IsBackendAvailable_iff_mem (flags : BuildFlags) (b : Backend) :
    (IsBackendAvailable flags b = true ↔ b ∈ GetAvailableBackends flags) ∧
      IsBackendAvailable flags Backend.UNKNOWN = false := by
  have hiff : ∀ x, IsBackendAvailable flags x = true ↔ x ∈ GetAvailableBackends flags :=
    fun x => scan_eq_true_iff (GetAvailableBackends flags) x
  refine ⟨hiff b, ?_⟩
  have hnot : Backend.UNKNOWN ∉ GetAvailableBackends flags := by
    obtain ⟨ort, trt, openvino, rknpu2, horizon, sophgo, gpu, encryption⟩ := flags
    cases ort <;> cases trt <;> cases openvino <;> cases rknpu2 <;> cases horizon <;>
      cases sophgo <;> cases gpu <;> cases encryption <;> decide
  cases h : IsBackendAvailable flags Backend.UNKNOWN with
  | false => rfl
  | true => exact absurd ((hiff _).mp h) hnot

/-! ## Engine selectors of the runtime option -/

/-- C10: selecting an engine fails at configuration time iff the engine is not
compiled in: each of `UseOrtBackend`, `UseTrtBackend`, `UseOpenVINOBackend`,
`UseSophgoBackend`, `UseHorizonNPUBackend` succeeds iff `IsBackendAvailable`
holds of its engine on that build; on success it sets `backend` to that engine
and changes no other field, and otherwise it stops in its "didn't compile with"
assertion, the option being as it was before the call. -/
theorem engine_selector_succeeds_iff_available (flags : BuildFlags) (o : RuntimeOption) :
    (o.UseOrtBackend flags =
      if IsBackendAvailable flags Backend.ORT = true then
        Except.ok { o with backend := Backend.ORT }
      else Except.error ("The FastDeploy didn't compile with OrtBackend.", o)) ∧
    (o.UseTrtBackend flags =
      if IsBackendAvailable flags Backend.TRT = true then
        Except.ok { o with backend := Backend.TRT }
      else Except.error ("The FastDeploy didn't compile with TrtBackend.", o)) ∧
    (o.UseOpenVINOBackend flags =
      if IsBackendAvailable flags Backend.OPENVINO = true then
        Except.ok { o with backend := Backend.OPENVINO }
      else Except.error ("The FastDeploy didn't compile with OpenVINO.", o)) ∧
    (o.UseSophgoBackend flags =
      if IsBackendAvailable flags Backend.SOPHGOTPU = true then
        Except.ok { o with backend := Backend.SOPHGOTPU }
      else Except.error ("The FastDeploy didn't compile with SophgoBackend.", o)) ∧
    (o.UseHorizonNPUBackend flags =
      if IsBackendAvailable flags Backend.HORIZONNPU = true then
        Except.ok { o with backend := Backend.HORIZONNPU }
      else Except.error ("The FastDeploy didn't compile with horizon", o)) := by
  obtain ⟨ort, trt, openvino, rknpu2, horizon, sophgo, gpu, encryption⟩ := flags
  cases ort <;> cases trt <;> cases openvino <;> cases rknpu2 <;> cases horizon <;>
    cases sophgo <;> exact ⟨rfl, rfl, rfl, rfl, rfl⟩

/-! ## Setters of the runtime option -/

/-- C11: the model locator pair and its from-memory flag are set together:
`SetModelPath(a, b, f)` leaves `model_file = a`, `params_file = b`,
`model_format = f` and `model_from_memory_ = false`, `SetModelBuffer(a, b, f)`
leaves the same three values with `model_from_memory_ = true`; no other field
of the option changes, the two results differ in that flag only, and the last
of several calls determines all four fields. -/
theorem SetModel_sets_locator_and_flag (o : RuntimeOption) (a b a' b' : String)
    (f f' : ModelFormat) :
    o.SetModelPath a b f =
        { o with model_file := a, params_file := b, model_format := f,
                 model_from_memory_ := false } ∧
    o.SetModelBuffer a b f =
        { o with model_file := a, params_file := b, model_format := f,
                 model_from_memory_ := true } ∧
    o.SetModelBuffer a b f = { o.SetModelPath a b f with model_from_memory_ := true } ∧
    o.SetModelPath a b f = { o.SetModelBuffer a b f with model_from_memory_ := false } ∧
    (o.SetModelPath a' b' f').SetModelPath a b f = o.SetModelPath a b f ∧
    (o.SetModelBuffer a' b' f').SetModelPath a b f = o.SetModelPath a b f ∧
    (o.SetModelPath a' b' f').SetModelBuffer a b f = o.SetModelBuffer a b f ∧
    (o.SetModelBuffer a' b' f').SetModelBuffer a b f = o.SetModelBuffer a b f :=
  ⟨rfl, rfl, rfl, rfl, rfl, rfl, rfl, rfl⟩

/-- C12: `SetCpuThreadNum(n)` succeeds iff `n > 0`; on success `cpu_thread_num`,
`ort_option.intra_op_num_threads` and `openvino_option.cpu_thread_num` all equal
`n` and no other field changes; for `n <= 0` it stops in the assertion
"The thread_num must be greater than 0." with none of the three fields
modified. -/
theorem SetCpuThreadNum_succeeds_iff_positive (o : RuntimeOption) (n : Int) :
    o.SetCpuThreadNum n =
      if 0 < n then
        Except.ok
          { o with cpu_thread_num := n,
                   ort_option := { o.ort_option with intra_op_num_threads := n },
                   openvino_option := { o.openvino_option with cpu_thread_num := n } }
      else Except.error ("The thread_num must be greater than 0.", o) := by
  by_cases h : 0 < n
  · simp [RuntimeOption.SetCpuThreadNum, FDASSERT, h, bind, Except.bind, pure, Except.pure]
  · simp [RuntimeOption.SetCpuThreadNum, FDASSERT, h, bind, Except.bind]

/-- C13: `SetOrtGraphOptLevel(level)` succeeds iff `level` is one of -1, 0, 1,
2; on success `ort_option.graph_optimization_level = level` and nothing else
changes; for every other integer, 99 included, it stops in the assertion
"The level must be -1, 0, 1, 2." with the option unchanged. -/
theorem SetOrtGraphOptLevel_succeeds_iff_listed (o : RuntimeOption) (level : Int) :
    (o.SetOrtGraphOptLevel level =
      if level = -1 ∨ level = 0 ∨ level = 1 ∨ level = 2 then
        Except.ok { o with ort_option := { o.ort_option with graph_optimization_level := level } }
      else Except.error ("The level must be -1, 0, 1, 2.", o)) ∧
    o.SetOrtGraphOptLevel 99 = Except.error ("The level must be -1, 0, 1, 2.", o) := by
  refine ⟨?_, rfl⟩
  by_cases h1 : level = -1
  · subst h1; rfl
  by_cases h0 : level = 0
  · subst h0; rfl
  by_cases h1' : level = 1
  · subst h1'; rfl
  by_cases h2 : level = 2
  · subst h2; rfl
  have e1 : ¬ (-1 : Int) = level := fun h => h1 h.symm
  have e0 : ¬ (0 : Int) = level := fun h => h0 h.symm
  have e1' : ¬ (1 : Int) = level := fun h => h1' h.symm
  have e2 : ¬ (2 : Int) = level := fun h => h2 h.symm
  simp [RuntimeOption.SetOrtGraphOptLevel, FDASSERT, List.find?, h1, h0, h1', h2, e1, e0, e1',
    e2, bind, Except.bind]

/-- C14: `UseGpu(id)` selects the Nvidia GPU only on a GPU build: with
`WITH_GPU` defined it sets `device = GPU` and `device_id = id`; without it, it
forces `device = CPU` and leaves `device_id` unchanged; in both cases `backend`
and every other field are unchanged. -/
theorem UseGpu_selects_gpu_only_on_gpu_build (flags : BuildFlags) (o : RuntimeOption)
    (id : Int) :
    o.UseGpu flags id =
        (if flags.WITH_GPU = true then { o with device := Device.GPU, device_id := id }
         else { o with device := Device.CPU }) ∧
      (o.UseGpu flags id).backend = o.backend := by
  cases h : flags.WITH_GPU <;> simp [RuntimeOption.UseGpu, h]

/-- C15: `UseSophgo()` succeeds iff the Sophgo engine is compiled in
(`ENABLE_SOPHGO_BACKEND`); on success the option has `device = SOPHGOTPUD` and
`backend = SOPHGOTPU` and is otherwise unchanged, a pair for which
`Supported(device, backend)` and `Supported(ModelFormat::SOPHGO, backend)` are
true; otherwise it stops in the assertion of `UseSophgoBackend`, the device
being already written. -/
theorem UseSophgo_succeeds_iff_compiled_in (flags : BuildFlags) (o : RuntimeOption) :
    (o.UseSophgo flags =
      if flags.ENABLE_SOPHGO_BACKEND = true then
        Except.ok { o with device := Device.SOPHGOTPUD, backend := Backend.SOPHGOTPU }
      else
        Except.error ("The FastDeploy didn't compile with SophgoBackend.",
          { o with device := Device.SOPHGOTPUD })) ∧
    (flags.ENABLE_SOPHGO_BACKEND = true ↔ IsBackendAvailable flags Backend.SOPHGOTPU = true) ∧
    (Device.SOPHGOTPUD.Supported Backend.SOPHGOTPU).result = true ∧
    (ModelFormat.SOPHGO.Supported Backend.SOPHGOTPU).result = true := by
  refine ⟨?_, ?_, rfl, rfl⟩
  · cases h : flags.ENABLE_SOPHGO_BACKEND <;>
      simp [RuntimeOption.UseSophgo, RuntimeOption.UseSophgoBackend, FDASSERT, h]
  · obtain ⟨ort, trt, openvino, rknpu2, horizon, sophgo, gpu, encryption⟩ := flags
    cases ort <;> cases trt <;> cases openvino <;> cases rknpu2 <;> cases horizon <;>
      cases sophgo <;> cases gpu <;> cases encryption <;> decide

/-! ## The pipeline of PPShiTuV2Recognizer -/

theorem forall₂_chain {α β γ δ : Type} {P : α → β → Prop} {E : β → γ → Prop}
    {Q : γ → δ → Prop} :
    ∀ {l₁ : List α} {l₂ : List β} {l₃ : List γ} {l₄ : List δ},
      List.Forall₂ P l₁ l₂ → List.Forall₂ E l₂ l₃ → List.Forall₂ Q l₃ l₄ →
      List.Forall₂ (fun a d => ∃ b c, P a b ∧ E b c ∧ Q c d) l₁ l₄ := by
  intro l₁
  induction l₁ with
  | nil =>
    intro l₂ l₃ l₄ h₁ h₂ h₃
    cases h₁; cases h₂; cases h₃
    exact List.Forall₂.nil
  | cons a as ih =>
    intro l₂ l₃ l₄ h₁ h₂ h₃
    cases h₁ with
    | cons hab h₁' =>
      cases h₂ with
      | cons hbc h₂' =>
        cases h₃ with
        | cons hcd h₃' => exact List.Forall₂.cons ⟨_, _, hab, hbc, hcd⟩ (ih h₁' h₂' h₃')

theorem BatchPredict_of_preprocess_fails {σ Mat τ Result : Type}
    (ext : Externals σ Mat τ Result) (self : PPShiTuV2Recognizer σ τ) (mats : List Mat)
    (results : List Result) (pre : Ran σ (List (FDTensor τ)))
    (hpre : pre = ext.preprocessor_Run self.collaborators mats self.reused_input_tensors_)
    (hret : pre.ret = false) :
    self.BatchPredict ext mats results =
      some ⟨false, ⟨pre.state, pre.written, self.reused_output_tensors_⟩, results,
        [⟨Stage.preprocess, [], false⟩]⟩ := by
  subst hpre
  simp [PPShiTuV2Recognizer.BatchPredict, hret]

theorem BatchPredict_of_no_input_tensor {σ Mat τ Result : Type}
    (ext : Externals σ Mat τ Result) (self : PPShiTuV2Recognizer σ τ) (mats : List Mat)
    (results : List Result) (pre : Ran σ (List (FDTensor τ)))
    (hpre : pre = ext.preprocessor_Run self.collaborators mats self.reused_input_tensors_)
    (hret : pre.ret = true) (hw : pre.written = []) :
    self.BatchPredict ext mats results = none := by
  subst hpre
  simp [PPShiTuV2Recognizer.BatchPredict, hret, hw]

theorem BatchPredict_of_infer_fails {σ Mat τ Result : Type}
    (ext : Externals σ Mat τ Result) (self : PPShiTuV2Recognizer σ τ) (mats : List Mat)
    (results : List Result) (pre inf : Ran σ (List (FDTensor τ))) (first : FDTensor τ)
    (others inputs : List (FDTensor τ))
    (hpre : pre = ext.preprocessor_Run self.collaborators mats self.reused_input_tensors_)
    (hret : pre.ret = true) (hw : pre.written = first :: others)
    (hin : inputs = { first with name := ext.InputInfoOfRuntime pre.state 0 } :: others)
    (hinf : inf = ext.Infer pre.state inputs self.reused_output_tensors_)
    (hr : inf.ret = false) :
    self.BatchPredict ext mats results =
      some ⟨false, ⟨inf.state, inputs, inf.written⟩, results,
        [⟨Stage.preprocess, [], true⟩, ⟨Stage.infer, inputs, false⟩]⟩ := by
  subst hpre hin hinf
  simp [PPShiTuV2Recognizer.BatchPredict, hret, hw, hr]

theorem BatchPredict_of_infer_succeeds {σ Mat τ Result : Type}
    (ext : Externals σ Mat τ Result) (self : PPShiTuV2Recognizer σ τ) (mats : List Mat)
    (results : List Result) (pre inf : Ran σ (List (FDTensor τ))) (post : Ran σ (List Result))
    (first : FDTensor τ) (others inputs : List (FDTensor τ))
    (hpre : pre = ext.preprocessor_Run self.collaborators mats self.reused_input_tensors_)
    (hret : pre.ret = true) (hw : pre.written = first :: others)
    (hin : inputs = { first with name := ext.InputInfoOfRuntime pre.state 0 } :: others)
    (hinf : inf = ext.Infer pre.state inputs self.reused_output_tensors_)
    (hr : inf.ret = true)
    (hpost : post = ext.postprocessor_Run inf.state inf.written results) :
    self.BatchPredict ext mats results =
      some ⟨post.ret, ⟨post.state, inputs, inf.written⟩, post.written,
        [⟨Stage.preprocess, [], true⟩, ⟨Stage.infer, inputs, true⟩,
          ⟨Stage.postprocess, inf.written, post.ret⟩]⟩ := by
  subst hpre hin hinf hpost
  simp only [PPShiTuV2Recognizer.BatchPredict, hret, hw, hr]
  cases hp : (ext.postprocessor_Run _ _ results).ret <;> simp [hp]

/-- The four ways a call of `BatchPredict` can go, with what it leaves in
each: the preprocessor fails; it succeeds leaving no tensor (undefined); Infer
fails; or the postprocessor is reached and its return value is returned. -/
theorem BatchPredict_cases {σ Mat τ Result : Type} (ext : Externals σ Mat τ Result)
    (self : PPShiTuV2Recognizer σ τ) (mats : List Mat) (results : List Result)
    (pre : Ran σ (List (FDTensor τ)))
    (hpre : pre = ext.preprocessor_Run self.collaborators mats self.reused_input_tensors_) :
    (pre.ret = false ∧
      self.BatchPredict ext mats results =
        some ⟨false, ⟨pre.state, pre.written, self.reused_output_tensors_⟩, results,
          [⟨Stage.preprocess, [], false⟩]⟩) ∨
    (pre.ret = true ∧ pre.written = [] ∧ self.BatchPredict ext mats results = none) ∨
    (∃ first others inputs inf, pre.ret = true ∧ pre.written = first :: others ∧
      inputs = { first with name := ext.InputInfoOfRuntime pre.state 0 } :: others ∧
      inf = ext.Infer pre.state inputs self.reused_output_tensors_ ∧
      ((inf.ret = false ∧
        self.BatchPredict ext mats results =
          some ⟨false, ⟨inf.state, inputs, inf.written⟩, results,
            [⟨Stage.preprocess, [], true⟩, ⟨Stage.infer, inputs, false⟩]⟩) ∨
       (inf.ret = true ∧ ∃ post, post = ext.postprocessor_Run inf.state inf.written results ∧
        self.BatchPredict ext mats results =
          some ⟨post.ret, ⟨post.state, inputs, inf.written⟩, post.written,
            [⟨Stage.preprocess, [], true⟩, ⟨Stage.infer, inputs, true⟩,
              ⟨Stage.postprocess, inf.written, post.ret⟩]⟩))) := by
  cases hret : pre.ret with
  | false => exact Or.inl ⟨rfl, BatchPredict_of_preprocess_fails ext self mats results pre hpre hret⟩
  | true =>
    right
    cases hw : pre.written with
    | nil =>
      exact Or.inl ⟨rfl, rfl,
        BatchPredict_of_no_input_tensor ext self mats results pre hpre hret hw⟩
    | cons first others =>
      right
      refine ⟨first, others, _, _, rfl, rfl, rfl, rfl, ?_⟩
      cases hr : (ext.Infer pre.state
          ({ first with name := ext.InputInfoOfRuntime pre.state 0 } :: others)
          self.reused_output_tensors_).ret with
      | false =>
        exact Or.inl ⟨rfl, BatchPredict_of_infer_fails ext self mats results pre _ first others _
          hpre hret hw rfl rfl hr⟩
      | true =>
        exact Or.inr ⟨rfl, _, rfl, BatchPredict_of_infer_succeeds ext self mats results pre _ _
          first others _ hpre hret hw rfl rfl hr rfl⟩

/-- C16: `BatchPredict` runs the stages in the order preprocess, infer,
postprocess and short-circuits on the first failure.  With `pre` what the
preprocessor leaves: if the preprocessor returns false, `BatchPredict` returns
false, neither `Infer` nor the postprocessor is called, and the results are
untouched; if it returns true, `Infer` is called on the bound input tensors,
and if `Infer` returns false, `BatchPredict` returns false, the postprocessor is
not called and the results are untouched; if `Infer` returns true the
postprocessor is called on what `Infer` wrote and `BatchPredict` returns what
the postprocessor returns.  So it returns true iff all three stages return
true.  It returns unless the preprocessor succeeded leaving no input tensor
(where `[0]` is undefined). -/
theorem BatchPredict_short_circuits {σ Mat τ Result : Type} (ext : Externals σ Mat τ Result)
    (self : PPShiTuV2Recognizer σ τ) (mats : List Mat) (results : List Result)
    (pre : Ran σ (List (FDTensor τ)))
    (hpre : pre = ext.preprocessor_Run self.collaborators mats self.reused_input_tensors_) :
    (pre.ret = false →
      self.BatchPredict ext mats results =
        some ⟨false, ⟨pre.state, pre.written, self.reused_output_tensors_⟩, results,
          [⟨Stage.preprocess, [], false⟩]⟩) ∧
    (∀ (first : FDTensor τ) (others inputs : List (FDTensor τ))
        (inf : Ran σ (List (FDTensor τ))) (post : Ran σ (List Result)),
      pre.ret = true → pre.written = first :: others →
      inputs = { first with name := ext.InputInfoOfRuntime pre.state 0 } :: others →
      inf = ext.Infer pre.state inputs self.reused_output_tensors_ →
      post = ext.postprocessor_Run inf.state inf.written results →
      (inf.ret = false →
        self.BatchPredict ext mats results =
          some ⟨false, ⟨inf.state, inputs, inf.written⟩, results,
            [⟨Stage.preprocess, [], true⟩, ⟨Stage.infer, inputs, false⟩]⟩) ∧
      (inf.ret = true →
        self.BatchPredict ext mats results =
          some ⟨post.ret, ⟨post.state, inputs, inf.written⟩, post.written,
            [⟨Stage.preprocess, [], true⟩, ⟨Stage.infer, inputs, true⟩,
              ⟨Stage.postprocess, inf.written, post.ret⟩]⟩)) ∧
    (self.BatchPredict ext mats results = none ↔ pre.ret = true ∧ pre.written = []) ∧
    (∀ out, self.BatchPredict ext mats results = some out →
      (out.ret = true ↔
        ∃ (first : FDTensor τ) (others inputs : List (FDTensor τ))
          (inf : Ran σ (List (FDTensor τ))) (post : Ran σ (List Result)),
          pre.written = first :: others ∧
          inputs = { first with name := ext.InputInfoOfRuntime pre.state 0 } :: others ∧
          inf = ext.Infer pre.state inputs self.reused_output_tensors_ ∧
          post = ext.postprocessor_Run inf.state inf.written results ∧
          pre.ret = true ∧ inf.ret = true ∧ post.ret = true) ∧
      (trace out.calls = [(Stage.preprocess, false)] ∨
        trace out.calls = [(Stage.preprocess, true), (Stage.infer, false)] ∨
        trace out.calls =
          [(Stage.preprocess, true), (Stage.infer, true), (Stage.postprocess, false)] ∨
        trace out.calls =
          [(Stage.preprocess, true), (Stage.infer, true), (Stage.postprocess, true)]) ∧
      (out.ret = true ↔
        trace out.calls =
          [(Stage.preprocess, true), (Stage.infer, true), (Stage.postprocess, true)])) := by
  refine ⟨?_, ?_, ?_, ?_⟩
  · intro hret
    exact BatchPredict_of_preprocess_fails ext self mats results pre hpre hret
  · intro first others inputs inf post hret hw hin hinf hpost
    exact ⟨fun hr => BatchPredict_of_infer_fails ext self mats results pre inf first others
        inputs hpre hret hw hin hinf hr,
      fun hr => BatchPredict_of_infer_succeeds ext self mats results pre inf post first others
        inputs hpre hret hw hin hinf hr hpost⟩
  · rcases BatchPredict_cases ext self mats results pre hpre with
      ⟨h, e⟩ | ⟨h1, h2, e⟩ | ⟨first, others, inputs, inf, h1, h2, _, _, ⟨_, e⟩ | ⟨_, post, _, e⟩⟩
    · rw [e]; simp [h]
    · rw [e]; simp [h1, h2]
    · rw [e]; simp [h2]
    · rw [e]; simp [h2]
  · intro out hout
    rcases BatchPredict_cases ext self mats results pre hpre with
      ⟨h, e⟩ | ⟨h1, h2, e⟩ |
      ⟨first, others, inputs, inf, h1, h2, h3, h4, ⟨h5, e⟩ | ⟨h5, post, h6, e⟩⟩
    · rw [e] at hout
      cases hout
      refine ⟨?_, by simp [trace], by simp [trace]⟩
      constructor
      · intro hfalse
        cases hfalse
      · rintro ⟨_, _, _, _, _, _, _, _, _, hp, _, _⟩
        rw [h] at hp
        cases hp
    · rw [e] at hout
      cases hout
    · rw [e] at hout
      cases hout
      refine ⟨?_, by simp [trace], by simp [trace]⟩
      constructor
      · intro hfalse
        cases hfalse
      · rintro ⟨first', others', inputs', inf', post', hw', hin', hinf', _, _, hr', _⟩
        rw [h2] at hw'
        cases hw'
        rw [← h3] at hin'
        subst hin'
        rw [← h4] at hinf'
        subst hinf'
        rw [h5] at hr'
        cases hr'
    · rw [e] at hout
      cases hout
      refine ⟨?_, ?_, ?_⟩
      · constructor
        · intro hp
          exact ⟨first, others, inputs, inf, post, h2, h3, h4, h6, h1, h5, hp⟩
        · rintro ⟨first', others', inputs', inf', post', hw', hin', hinf', hpost', _, _, hp'⟩
          rw [h2] at hw'
          cases hw'
          rw [← h3] at hin'
          subst hin'
          rw [← h4] at hinf'
          subst hinf'
          rw [← h6] at hpost'
          subst hpost'
          exact hp'
      · cases hp : post.ret <;> simp [trace, hp]
      · cases hp : post.ret <;> simp [trace, hp]

/-- Witness of C16: on the batch `[5]` with the caller's list `[9]`, a failing
preprocessor ends the call after one call; a failing `Infer` ends it after two,
without a call of the postprocessor and with the list untouched; a failing
postprocessor makes it return false after three calls; with three succeeding
stages it returns true with the result the postprocessor wrote. -/
theorem BatchPredict_short_circuits_witness :
    freshRecognizer.BatchPredict (oneInputExternals false true true) [5] [9] =
      some ⟨false, ⟨(), [⟨"", [5]⟩], []⟩, [9], [⟨Stage.preprocess, [], false⟩]⟩ ∧
    freshRecognizer.BatchPredict (oneInputExternals true false true) [5] [9] =
      some ⟨false, ⟨(), [⟨"x", [5]⟩], [⟨"y", [6]⟩]⟩, [9],
        [⟨Stage.preprocess, [], true⟩, ⟨Stage.infer, [⟨"x", [5]⟩], false⟩]⟩ ∧
    freshRecognizer.BatchPredict (oneInputExternals true true false) [5] [9] =
      some ⟨false, ⟨(), [⟨"x", [5]⟩], [⟨"y", [6]⟩]⟩, [6],
        [⟨Stage.preprocess, [], true⟩, ⟨Stage.infer, [⟨"x", [5]⟩], true⟩,
          ⟨Stage.postprocess, [⟨"y", [6]⟩], false⟩]⟩ ∧
    freshRecognizer.BatchPredict (oneInputExternals true true true) [5] [9] =
      some ⟨true, ⟨(), [⟨"x", [5]⟩], [⟨"y", [6]⟩]⟩, [6],
        [⟨Stage.preprocess, [], true⟩, ⟨Stage.infer, [⟨"x", [5]⟩], true⟩,
          ⟨Stage.postprocess, [⟨"y", [6]⟩], true⟩]⟩ :=
  ⟨(BatchPredict_short_circuits (oneInputExternals false true true) freshRecognizer [5] [9] _
      rfl).1 rfl,
    ((BatchPredict_short_circuits (oneInputExternals true false true) freshRecognizer [5] [9] _
      rfl).2.1 ⟨"", [5]⟩ [] _ _ _ rfl rfl rfl rfl rfl).1 rfl,
    ((BatchPredict_short_circuits (oneInputExternals true true false) freshRecognizer [5] [9] _
      rfl).2.1 ⟨"", [5]⟩ [] _ _ _ rfl rfl rfl rfl rfl).2 rfl,
    ((BatchPredict_short_circuits (oneInputExternals true true true) freshRecognizer [5] [9] _
      rfl).2.1 ⟨"", [5]⟩ [] _ _ _ rfl rfl rfl rfl rfl).2 rfl⟩

/-- C17: `Predict(mat, result)` delegates to `BatchPredict` with the size-1
batch `[mat]` and an empty local result list, and returns the same success
flag: when that call fails the caller's `*result` is exactly what it was before
the call; when it succeeds `*result` is element 0 of the batch results.  (With
a successful call that left no batch result, `results[0]` is undefined.) -/
theorem Predict_delegates_to_BatchPredict {σ Mat τ Result : Type}
    (ext : Externals σ Mat τ Result) (self : PPShiTuV2Recognizer σ τ) (mat : Mat)
    (result : Result) :
    (∀ batch, self.BatchPredict ext [mat] [] = some batch → batch.ret = false →
      self.Predict ext mat result = some ⟨false, batch.self, result, batch.calls⟩) ∧
    (∀ batch first others, self.BatchPredict ext [mat] [] = some batch → batch.ret = true →
      batch.out = first :: others →
      self.Predict ext mat result = some ⟨true, batch.self, first, batch.calls⟩) ∧
    (∀ out, self.Predict ext mat result = some out →
      ∃ batch, self.BatchPredict ext [mat] [] = some batch ∧ out.ret = batch.ret ∧
        out.self = batch.self ∧ out.calls = batch.calls ∧
        (out.ret = false → out.out = result) ∧
        (out.ret = true → batch.out.head? = some out.out)) := by
  refine ⟨?_, ?_, ?_⟩
  · intro batch hb hret
    simp [PPShiTuV2Recognizer.Predict, hb, hret]
  · intro batch first others hb hret hout
    simp [PPShiTuV2Recognizer.Predict, hb, hret, hout]
  · intro out hout
    unfold PPShiTuV2Recognizer.Predict at hout
    cases hb : self.BatchPredict ext [mat] [] with
    | none => simp [hb] at hout
    | some batch =>
      refine ⟨batch, rfl, ?_⟩
      cases hret : batch.ret with
      | false =>
        simp [hb, hret] at hout
        subst hout
        simp
      | true =>
        cases hres : batch.out with
        | nil => simp [hb, hret, hres] at hout
        | cons first others =>
          simp [hb, hret, hres] at hout
          subst hout
          simp

/-- Witness of C17: with a failing postprocessor `Predict` returns false and
leaves the caller's result, here 42, as it was; with the three stages succeeding
it returns true and the result is element 0 of the batch results. -/
theorem Predict_delegates_to_BatchPredict_witness :
    (∃ out, freshRecognizer.Predict (oneInputExternals true true false) 5 42 = some out ∧
      out.ret = false ∧ out.out = 42) ∧
    (∃ out, freshRecognizer.Predict (oneInputExternals true true true) 5 42 = some out ∧
      out.ret = true ∧ out.out = 6) :=
  ⟨⟨_, (Predict_delegates_to_BatchPredict (oneInputExternals true true false) freshRecognizer 5
      42).1 _ rfl rfl, rfl, rfl⟩,
    ⟨_, (Predict_delegates_to_BatchPredict (oneInputExternals true true true) freshRecognizer 5
      42).2.1 _ 6 [] rfl rfl rfl, rfl, rfl⟩⟩

theorem oneInputExternals_element_for_element :
    ElementForElement (oneInputExternals true true true) List.flatten List.flatten
      (fun (m a : Nat) => a = m) (fun (a b : Nat) => b = a + 1) (fun (b r : Nat) => r = b) := by
  refine ⟨?_, ?_, ?_⟩
  · intro s mats buffer _
    simp [oneInputExternals, List.forall₂_same]
  · intro s inputs buffer _
    have hmap : ((oneInputExternals true true true).Infer s inputs buffer).written.map
        FDTensor.rest = (inputs.map FDTensor.rest).map (List.map (fun v => v + 1)) := by
      simp [oneInputExternals, List.map_map, Function.comp_def]
    rw [hmap, ← List.map_flatten, List.forall₂_map_right_iff, List.forall₂_same]
    intro x _
    rfl
  · intro s outputs results _
    simp [oneInputExternals, List.forall₂_same]

/-- C18: for every input batch of size N, a successful `BatchPredict` leaves a
result list of size exactly N, element i of which corresponds to input i
through the three stages, the collaborators keeping the batch
element-for-element as the spec requires of them. -/
theorem BatchPredict_results_follow_batch {σ Mat τ Result ρ₁ ρ₂ : Type}
    (ext : Externals σ Mat τ Result) (rows_in : List τ → List ρ₁) (rows_out : List τ → List ρ₂)
    (P : Mat → ρ₁ → Prop) (E : ρ₁ → ρ₂ → Prop) (Q : ρ₂ → Result → Prop)
    (hc : ElementForElement ext rows_in rows_out P E Q)
    (self : PPShiTuV2Recognizer σ τ) (mats : List Mat) (results : List Result)
    (out : Returned σ τ (List Result))
    (h : self.BatchPredict ext mats results = some out) (hret : out.ret = true) :
    out.out.length = mats.length ∧
      List.Forall₂ (fun m r => ∃ a b, P m a ∧ E a b ∧ Q b r) mats out.out := by
  have key : List.Forall₂ (fun m r => ∃ a b, P m a ∧ E a b ∧ Q b r) mats out.out := by
    rcases BatchPredict_cases ext self mats results _ rfl with
      ⟨_, e⟩ | ⟨_, _, e⟩ |
      ⟨first, others, inputs, inf, h1, h2, h3, h4, ⟨_, e⟩ | ⟨h5, post, h6, e⟩⟩
    · rw [e] at h
      cases h
      cases hret
    · rw [e] at h
      cases h
    · rw [e] at h
      cases h
      cases hret
    · rw [e] at h
      cases h
      have hp : (ext.postprocessor_Run inf.state inf.written results).ret = true := by
        rw [← h6]; exact hret
      have hi : (ext.Infer (ext.preprocessor_Run self.collaborators mats
          self.reused_input_tensors_).state inputs self.reused_output_tensors_).ret = true := by
        rw [← h4]; exact h5
      have c1 := hc.preprocess self.collaborators mats self.reused_input_tensors_ h1
      have c2 := hc.infer _ inputs self.reused_output_tensors_ hi
      have c3 := hc.postprocess inf.state inf.written results hp
      have hrest : inputs.map FDTensor.rest =
          (ext.preprocessor_Run self.collaborators mats
            self.reused_input_tensors_).written.map FDTensor.rest := by
        rw [h3, h2]
        rfl
      rw [hrest] at c2
      rw [← h4] at c2
      rw [← h6] at c3
      exact forall₂_chain c1 c2 c3
  exact ⟨key.length_eq.symm, key⟩

/-- Witness of C18: a batch of four images gives four results, in the order of
the images. -/
theorem BatchPredict_results_follow_batch_witness :
    ∃ out, freshRecognizer.BatchPredict (oneInputExternals true true true) [10, 20, 30, 40] [] =
        some out ∧
      out.ret = true ∧ out.out = [11, 21, 31, 41] ∧ out.out.length = [10, 20, 30, 40].length :=
  ⟨_, rfl, rfl, rfl,
    (BatchPredict_results_follow_batch (oneInputExternals true true true) List.flatten
      List.flatten (fun (m a : Nat) => a = m) (fun (a b : Nat) => b = a + 1)
      (fun (b r : Nat) => r = b) oneInputExternals_element_for_element freshRecognizer
      [10, 20, 30, 40] [] _ rfl rfl).1⟩

/-- Counterexample to C19 as stated: the preprocessor and Infer succeed, the
postprocessor writes one result into the caller's empty list and returns
false; `BatchPredict` returns false and the caller's list is no longer what it
was before the call. -/
theorem BatchPredict_failure_can_leave_output :
    ∃ out, freshRecognizer.BatchPredict (oneInputExternals true true false) [5] [] = some out ∧
      out.ret = false ∧ out.out = [6] ∧ out.out ≠ [] :=
  ⟨_, rfl, rfl, rfl, by decide⟩

/-- C19, amended: when `BatchPredict` returns false because the preprocessor or
Infer failed (the postprocessor was not called), the caller's results list
equals its value before the call; when the postprocessor was called and
failed, the list is what that call of the postprocessor left in it, so it is
unchanged whenever a failing postprocessor leaves its list untouched. -/
theorem BatchPredict_failure_output {σ Mat τ Result : Type} (ext : Externals σ Mat τ Result)
    (self : PPShiTuV2Recognizer σ τ) (mats : List Mat) (results : List Result)
    (out : Returned σ τ (List Result))
    (h : self.BatchPredict ext mats results = some out) (hret : out.ret = false) :
    (((∀ c ∈ out.calls, c.stage ≠ Stage.postprocess) ∧ out.out = results) ∨
      (∃ s tensors, (⟨Stage.postprocess, tensors, false⟩ : Call τ) ∈ out.calls ∧
        (ext.postprocessor_Run s tensors results).ret = false ∧
        out.out = (ext.postprocessor_Run s tensors results).written)) ∧
    ((∀ s tensors, (ext.postprocessor_Run s tensors results).ret = false →
        (ext.postprocessor_Run s tensors results).written = results) →
      out.out = results) := by
  have key : ((∀ c ∈ out.calls, c.stage ≠ Stage.postprocess) ∧ out.out = results) ∨
      (∃ s tensors, (⟨Stage.postprocess, tensors, false⟩ : Call τ) ∈ out.calls ∧
        (ext.postprocessor_Run s tensors results).ret = false ∧
        out.out = (ext.postprocessor_Run s tensors results).written) := by
    rcases BatchPredict_cases ext self mats results _ rfl with
      ⟨_, e⟩ | ⟨_, _, e⟩ |
      ⟨first, others, inputs, inf, _, _, _, _, ⟨_, e⟩ | ⟨_, post, h6, e⟩⟩
    · rw [e] at h
      cases h
      left
      simp
    · rw [e] at h
      cases h
    · rw [e] at h
      cases h
      left
      simp
    · rw [e] at h
      cases h
      right
      have hp : post.ret = false := hret
      refine ⟨inf.state, inf.written, ?_, ?_, ?_⟩
      · simp [hp]
      · rw [← h6]; exact hp
      · rw [← h6]
  refine ⟨key, ?_⟩
  intro hpost
  rcases key with ⟨_, hsame⟩ | ⟨s, tensors, _, hfail, hout⟩
  · exact hsame
  · rw [hout]
    exact hpost s tensors hfail

/-- Witness of C19, amended: Infer fails, and the caller's list `[7]` is what
it was before the call. -/
theorem BatchPredict_failure_output_witness :
    ∃ out, freshRecognizer.BatchPredict (oneInputExternals true false true) [5] [7] = some out ∧
      out.ret = false ∧ out.out = [7] :=
  ⟨_, rfl, rfl,
    (BatchPredict_failure_output (oneInputExternals true false true) freshRecognizer [5] [7] _
      rfl rfl).2 (fun _ _ hfail => Bool.noConfusion hfail)⟩

/-- Counterexample to C20 as stated: the preprocessor writes two tensors,
named "a" and "b", and the runtime declares the inputs "x" and "im_shape";
`Infer` is handed the tensors named "x" and "b", which are also what the
member `reused_input_tensors_` then holds: tensor 1 does not carry the name
declared for input 1. -/
theorem BatchPredict_binds_first_name_only :
    ∃ out, freshRecognizer.BatchPredict twoInputExternals [5] [] = some out ∧
      (⟨Stage.infer, [⟨"x", [5]⟩, ⟨"b", [5]⟩], true⟩ : Call (List Nat)) ∈ out.calls ∧
      out.self.reused_input_tensors_ = [⟨"x", [5]⟩, ⟨"b", [5]⟩] ∧
      out.self.reused_output_tensors_ =
        (twoInputExternals.Infer () [⟨"x", [5]⟩, ⟨"b", [5]⟩] []).written ∧
      twoInputExternals.InputInfoOfRuntime () 1 = "im_shape" ∧
      ("b" : String) ≠ "im_shape" :=
  ⟨_, rfl, by decide, rfl, rfl, rfl, by decide⟩

/-- C20, amended: in `BatchPredict`, after a successful preprocessing stage
that left the tensors `first :: others`, `Infer` is called on the list whose
tensor 0 is `first` under the name the runtime declares for input 0
(`InputInfoOfRuntime(0).name`) and whose further tensors are `others` as the
preprocessor left them, name included; that list is what the member
`reused_input_tensors_` holds afterwards and what `Infer` wrote from it is what
`reused_output_tensors_` holds.  So every tensor handed to `Infer` carries its
declared name when the preprocessor leaves exactly one tensor.  Conversely a
call of `Infer` only happens after such a preprocessing stage, on that list. -/
theorem BatchPredict_names_first_input {σ Mat τ Result : Type}
    (ext : Externals σ Mat τ Result) (self : PPShiTuV2Recognizer σ τ) (mats : List Mat)
    (results : List Result) (pre : Ran σ (List (FDTensor τ)))
    (hpre : pre = ext.preprocessor_Run self.collaborators mats self.reused_input_tensors_) :
    (∀ (first : FDTensor τ) (others inputs : List (FDTensor τ))
        (inf : Ran σ (List (FDTensor τ))),
      pre.ret = true → pre.written = first :: others →
      inputs = { first with name := ext.InputInfoOfRuntime pre.state 0 } :: others →
      inf = ext.Infer pre.state inputs self.reused_output_tensors_ →
      ∃ out, self.BatchPredict ext mats results = some out ∧
        out.self.reused_input_tensors_ = inputs ∧
        out.self.reused_output_tensors_ = inf.written ∧
        (⟨Stage.infer, inputs, inf.ret⟩ : Call τ) ∈ out.calls ∧
        (inf.ret = false → out.ret = false ∧ out.self.collaborators = inf.state) ∧
        (inf.ret = true →
          out.ret = (ext.postprocessor_Run inf.state inf.written results).ret ∧
          out.out = (ext.postprocessor_Run inf.state inf.written results).written) ∧
        inputs.head?.map FDTensor.name = some (ext.InputInfoOfRuntime pre.state 0) ∧
        inputs.tail = pre.written.tail ∧
        inputs.map FDTensor.rest = pre.written.map FDTensor.rest ∧
        (others = [] → inputs.map FDTensor.name = [ext.InputInfoOfRuntime pre.state 0])) ∧
    (∀ (out : Returned σ τ (List Result)) (c : Call τ),
      self.BatchPredict ext mats results = some out → c ∈ out.calls →
      c.stage = Stage.infer →
      pre.ret = true ∧
      (∃ first others, pre.written = first :: others ∧
        c.tensors = { first with name := ext.InputInfoOfRuntime pre.state 0 } :: others) ∧
      c.ret = (ext.Infer pre.state c.tensors self.reused_output_tensors_).ret ∧
      out.self.reused_input_tensors_ = c.tensors ∧
      out.self.reused_output_tensors_ =
        (ext.Infer pre.state c.tensors self.reused_output_tensors_).written ∧
      (pre.written.length = 1 →
        c.tensors.map FDTensor.name = [ext.InputInfoOfRuntime pre.state 0])) := by
  constructor
  · intro first others inputs inf hret hw hin hinf
    have hshape : inputs.head?.map FDTensor.name = some (ext.InputInfoOfRuntime pre.state 0) ∧
        inputs.tail = pre.written.tail ∧
        inputs.map FDTensor.rest = pre.written.map FDTensor.rest ∧
        (others = [] → inputs.map FDTensor.name = [ext.InputInfoOfRuntime pre.state 0]) := by
      rw [hin, hw]
      refine ⟨rfl, rfl, rfl, ?_⟩
      intro hnil
      rw [hnil]
      rfl
    cases hr : inf.ret with
    | false =>
      refine ⟨_, BatchPredict_of_infer_fails ext self mats results pre inf first others inputs
        hpre hret hw hin hinf hr, rfl, rfl, ?_, ?_, ?_, hshape⟩
      · simp
      · intro _
        exact ⟨rfl, rfl⟩
      · intro hcontra
        cases hcontra
    | true =>
      refine ⟨_, BatchPredict_of_infer_succeeds ext self mats results pre inf _ first others
        inputs hpre hret hw hin hinf hr rfl, rfl, rfl, ?_, ?_, ?_, hshape⟩
      · simp
      · intro hcontra
        cases hcontra
      · intro _
        exact ⟨rfl, rfl⟩
  · intro out c h hc hs
    rcases BatchPredict_cases ext self mats results pre hpre with
      ⟨_, e⟩ | ⟨_, _, e⟩ |
      ⟨first, others, inputs, inf, h1, h2, h3, h4, ⟨h5, e⟩ | ⟨h5, post, _, e⟩⟩
    · rw [e] at h
      cases h
      simp at hc
      subst hc
      cases hs
    · rw [e] at h
      cases h
    · rw [e] at h
      cases h
      have hct : c = ⟨Stage.infer, inputs, false⟩ := by
        simp at hc
        rcases hc with hc | hc
        · subst hc
          cases hs
        · exact hc
      subst hct
      refine ⟨h1, ⟨first, others, h2, h3⟩, ?_, rfl, ?_, ?_⟩
      · show false = (ext.Infer pre.state inputs self.reused_output_tensors_).ret
        rw [← h4, h5]
      · show inf.written = (ext.Infer pre.state inputs self.reused_output_tensors_).written
        rw [← h4]
      · intro hlen
        rw [h2] at hlen
        have hnil : others = [] := by
          cases others with
          | nil => rfl
          | cons x xs => simp at hlen
        show inputs.map FDTensor.name = _
        rw [h3, hnil]
        rfl
    · rw [e] at h
      cases h
      have hct : c = ⟨Stage.infer, inputs, true⟩ := by
        simp at hc
        rcases hc with hc | hc | hc
        · subst hc
          cases hs
        · exact hc
        · subst hc
          cases hs
      subst hct
      refine ⟨h1, ⟨first, others, h2, h3⟩, ?_, rfl, ?_, ?_⟩
      · show true = (ext.Infer pre.state inputs self.reused_output_tensors_).ret
        rw [← h4, h5]
      · show inf.written = (ext.Infer pre.state inputs self.reused_output_tensors_).written
        rw [← h4]
      · intro hlen
        rw [h2] at hlen
        have hnil : others = [] := by
          cases others with
          | nil => rfl
          | cons x xs => simp at hlen
        show inputs.map FDTensor.name = _
        rw [h3, hnil]
        rfl

/-- Witness of C20, amended: the runtime accepts only a tensor named "x" and
the preprocessor writes its tensor under the name ""; `BatchPredict` returns
true, `Infer` having been handed the tensor under the name "x", which is also
what `reused_input_tensors_` and `reused_output_tensors_` hold afterwards. -/
theorem BatchPredict_names_first_input_witness :
    ∃ out, freshRecognizer.BatchPredict nameCheckingExternals [5] [] = some out ∧
      out.self.reused_input_tensors_ = [⟨"x", [5]⟩] ∧
      out.self.reused_output_tensors_ = [⟨"x", [5]⟩] ∧
      (⟨Stage.infer, [⟨"x", [5]⟩], true⟩ : Call (List Nat)) ∈ out.calls ∧
      out.ret = true ∧ out.out = [5] :=
  Exists.elim
    ((BatchPredict_names_first_input nameCheckingExternals freshRecognizer [5] [] _ rfl).1
      ⟨"", [5]⟩ [] _ _ rfl rfl rfl rfl)
    (fun out hall =>
      ⟨out, hall.1, hall.2.1, hall.2.2.1, hall.2.2.2.1, (hall.2.2.2.2.2.1 rfl).1,
        (hall.2.2.2.2.2.1 rfl).2⟩)

/-! ## Devices with an empty engine list -/

/-- Counterexample to C22 as stated: `Device::IPU` and `Device::ASCEND` have an
entry in `s_default_backends_by_device` and its engine list is empty, so the
lookup yields an empty permitted set and `Supported` fails through the branch
that lists the (empty) permitted set, not through "not registered". -/
theorem ipu_and_ascend_have_empty_lists :
    find s_default_backends_by_device Device.IPU = some [] ∧
    find s_default_backends_by_device Device.ASCEND = some [] ∧
    Device.IPU.Supported Backend.ORT =
      ⟨false, some (Diagnostic.device_only_supports Backend.ORT [] Device.IPU)⟩ ∧
    Device.ASCEND.Supported Backend.ORT =
      ⟨false, some (Diagnostic.device_only_supports Backend.ORT [] Device.ASCEND)⟩ := by
  decide

/-- C22, amended: every `Device` value has an entry in
`s_default_backends_by_device`, so no device lookup is the "not registered"
configuration error; the engine list of the entry is non-empty for CPU, GPU,
RKNPU, SUNRISENPU and SOPHGOTPUD and empty exactly for IPU and ASCEND, for which
`Supported` returns false for every engine through the branch that lists the
permitted set, the listed set being empty. -/
theorem device_entries_empty_iff_ipu_or_ascend (d : Device) (b : Backend) :
    (∃ l, (d, l) ∈ s_default_backends_by_device ∧
      find s_default_backends_by_device d = some l) ∧
    (d.Supported b).error ≠ some Diagnostic.device_not_registered ∧
    (find s_default_backends_by_device d = some [] ↔ d = Device.IPU ∨ d = Device.ASCEND) ∧
    ((d = Device.IPU ∨ d = Device.ASCEND) ↔
      d.Supported b = ⟨false, some (Diagnostic.device_only_supports b [] d)⟩) := by
  refine ⟨?_, ?_, ?_, ?_⟩
  · cases hfind : find s_default_backends_by_device d with
    | none =>
      exfalso
      revert hfind
      cases d <;> decide
    | some l => exact ⟨l, (find_device_iff d l).mp hfind, rfl⟩
  · cases d <;> cases b <;> decide
  · cases d <;> decide
  · cases d <;> cases b <;> decide

/-! ## Engine lists of the models -/

theorem PPShiTuV2Recognizer_lists_onnx (base : FastDeployModel)
    (model_file params_file config_file : String) (custom_option : RuntimeOption) :
    (PPShiTuV2Recognizer.PPShiTuV2Recognizer base model_file params_file config_file
        custom_option ModelFormat.ONNX).valid_cpu_backends = [Backend.OPENVINO, Backend.ORT] ∧
    (PPShiTuV2Recognizer.PPShiTuV2Recognizer base model_file params_file config_file
        custom_option ModelFormat.ONNX).valid_gpu_backends = [Backend.ORT, Backend.TRT] :=
  ⟨rfl, rfl⟩

/-- Counterexample to C24 as stated: for `PPShiTuV2Recognizer` constructed with
`ModelFormat::ONNX` the first entry of `valid_cpu_backends` is `OPENVINO`, while
the first entry of the matrix's CPU list permitted for ONNX is `ORT`; for
`BasicVSR` the first entry of `valid_gpu_backends` is `TRT`, while the first
entry of the matrix's GPU list permitted for ONNX is `ORT`. -/
theorem model_lists_start_differs_from_matrix :
    (PPShiTuV2Recognizer.PPShiTuV2Recognizer sampleModel "model.onnx" "" "config.yaml"
        sampleOption ModelFormat.ONNX).valid_cpu_backends.head? = some Backend.OPENVINO ∧
    DefaultBackend ModelFormat.ONNX Device.CPU = some Backend.ORT ∧
    (BasicVSR.BasicVSR sampleModel "model.onnx" "" sampleOption
        ModelFormat.ONNX).valid_gpu_backends.head? = some Backend.TRT ∧
    DefaultBackend ModelFormat.ONNX Device.GPU = some Backend.ORT := by
  decide

/-- C24, amended: for `PPShiTuV2Recognizer` constructed with `ModelFormat::ONNX`
the first entry of `valid_gpu_backends` equals the first entry of the matrix's
GPU list that is permitted for ONNX (`Backend::ORT`), and `valid_gpu_backends`
is that part of the matrix's list in the same order; `valid_cpu_backends` holds
the engines of the matrix's CPU list permitted for ONNX in another order, its
first entry being `OPENVINO` and not the matrix's `ORT`.  For `BasicVSR` the
first entry of `valid_gpu_backends` is `TRT`, not the matrix's `ORT`. -/
theorem model_lists_against_matrix_order (base : FastDeployModel)
    (model_file params_file config_file : String) (custom_option : RuntimeOption)
    (f : ModelFormat) :
    (PPShiTuV2Recognizer.PPShiTuV2Recognizer base model_file params_file config_file
        custom_option ModelFormat.ONNX).valid_gpu_backends.head? =
      DefaultBackend ModelFormat.ONNX Device.GPU ∧
    DefaultBackend ModelFormat.ONNX Device.GPU = some Backend.ORT ∧
    DefaultBackend ModelFormat.ONNX Device.CPU = some Backend.ORT ∧
    (∃ l, find s_default_backends_by_device Device.GPU = some l ∧
      (PPShiTuV2Recognizer.PPShiTuV2Recognizer base model_file params_file config_file
          custom_option ModelFormat.ONNX).valid_gpu_backends =
        l.filter (fun b => (ModelFormat.ONNX.Supported b).result)) ∧
    (PPShiTuV2Recognizer.PPShiTuV2Recognizer base model_file params_file config_file
        custom_option ModelFormat.ONNX).valid_cpu_backends.head? = some Backend.OPENVINO ∧
    (∃ l, find s_default_backends_by_device Device.CPU = some l ∧
      List.Perm
        (PPShiTuV2Recognizer.PPShiTuV2Recognizer base model_file params_file config_file
          custom_option ModelFormat.ONNX).valid_cpu_backends
        (l.filter (fun b => (ModelFormat.ONNX.Supported b).result))) ∧
    (BasicVSR.BasicVSR base model_file params_file custom_option f).valid_gpu_backends.head? =
      some Backend.TRT := by
  obtain ⟨hcpu, hgpu⟩ := PPShiTuV2Recognizer_lists_onnx base model_file params_file config_file
    custom_option
  rw [hcpu, hgpu]
  refine ⟨by decide, by decide, by decide, ⟨_, rfl, by decide⟩, by decide, ⟨_, rfl, ?_⟩, rfl⟩
  decide

/-- C25 (the code against its comment): `BasicVSR::BasicVSR` stands under the
comment "unsupported ORT backend", yet it sets
`valid_cpu_backends = {ORT, OPENVINO}` and `valid_gpu_backends = {TRT, ORT}`:
`Backend::ORT` is an element of both lists. -/
theorem BasicVSR_lists_ort (base : FastDeployModel) (model_file params_file : String)
    (custom_option : RuntimeOption) (f : ModelFormat) :
    (BasicVSR.BasicVSR base model_file params_file custom_option f).valid_cpu_backends =
      [Backend.ORT, Backend.OPENVINO] ∧
    (BasicVSR.BasicVSR base model_file params_file custom_option f).valid_gpu_backends =
      [Backend.TRT, Backend.ORT] ∧
    Backend.ORT ∈
      (BasicVSR.BasicVSR base model_file params_file custom_option f).valid_cpu_backends ∧
    Backend.ORT ∈
      (BasicVSR.BasicVSR base model_file params_file custom_option f).valid_gpu_backends := by
  refine ⟨rfl, rfl, ?_, ?_⟩
  · show Backend.ORT ∈ [Backend.ORT, Backend.OPENVINO]
    decide
  · show Backend.ORT ∈ [Backend.TRT, Backend.ORT]
    decide

/-! ## Device selectors of the runtime option -/

theorem DeviceSelector_call_device (flags : BuildFlags) (o : RuntimeOption)
    (selector : DeviceSelector) :
    (selector.call flags o).last.device ∈
      [Device.CPU, Device.GPU, Device.RKNPU, Device.SUNRISENPU, Device.SOPHGOTPUD] := by
  cases selector with
  | UseCpu => simp [DeviceSelector.call, Outcome.last, RuntimeOption.UseCpu]
  | UseGpu gpu_id =>
    cases h : flags.WITH_GPU <;>
      simp [DeviceSelector.call, Outcome.last, RuntimeOption.UseGpu, h]
  | UseRKNPU2 rknpu2_name rknpu2_core =>
    simp [DeviceSelector.call, Outcome.last, RuntimeOption.UseRKNPU2]
  | UseHorizon => simp [DeviceSelector.call, Outcome.last, RuntimeOption.UseHorizon]
  | UseSophgo =>
    cases h : flags.ENABLE_SOPHGO_BACKEND <;>
      simp [DeviceSelector.call, Outcome.last, RuntimeOption.UseSophgo,
        RuntimeOption.UseSophgoBackend, FDASSERT, h]
  | UseIpu device_num micro_batch_size enable_pipelining batches_per_step =>
    simp [DeviceSelector.call, Outcome.last, RuntimeOption.UseIpu]

theorem DeviceSelector_callAll_device (flags : BuildFlags) (selectors : List DeviceSelector) :
    ∀ o : RuntimeOption,
      o.device ∈
        [Device.CPU, Device.GPU, Device.RKNPU, Device.SUNRISENPU, Device.SOPHGOTPUD] →
      (DeviceSelector.callAll flags o selectors).last.device ∈
        [Device.CPU, Device.GPU, Device.RKNPU, Device.SUNRISENPU, Device.SOPHGOTPUD] := by
  induction selectors with
  | nil =>
    intro o ho
    exact ho
  | cons selector rest ih =>
    intro o _
    have hstep := DeviceSelector_call_device flags o selector
    unfold DeviceSelector.callAll
    cases hcall : selector.call flags o with
    | ok o' =>
      rw [hcall] at hstep
      exact ih o' hstep
    | error e =>
      rw [hcall] at hstep
      exact hstep

/-- C26: starting from a default-constructed `RuntimeOption` (`device = CPU`)
and applying any finite sequence of its device selectors (`UseCpu`, `UseGpu`,
`UseRKNPU2`, `UseHorizon`, `UseSophgo`, `UseIpu`, with any arguments and under
any build flags), the device field is one of CPU, GPU, RKNPU, SUNRISENPU,
SOPHGOTPUD and never IPU or ASCEND, also when `UseSophgo` ends the sequence in
its assertion, and the reached device has a non-empty engine list in
`s_default_backends_by_device`.  From every option, whatever its device,
`UseIpu` sets `device = CPU` and changes nothing else, and every selector
leaves one of the five devices. -/
theorem device_selectors_reach_deployable_devices (flags : BuildFlags) (o : RuntimeOption)
    (selectors : List DeviceSelector) (h : o.device = Device.CPU) :
    ((DeviceSelector.callAll flags o selectors).last.device = Device.CPU ∨
      (DeviceSelector.callAll flags o selectors).last.device = Device.GPU ∨
      (DeviceSelector.callAll flags o selectors).last.device = Device.RKNPU ∨
      (DeviceSelector.callAll flags o selectors).last.device = Device.SUNRISENPU ∨
      (DeviceSelector.callAll flags o selectors).last.device = Device.SOPHGOTPUD) ∧
    (DeviceSelector.callAll flags o selectors).last.device ≠ Device.IPU ∧
    (DeviceSelector.callAll flags o selectors).last.device ≠ Device.ASCEND ∧
    (∃ l, find s_default_backends_by_device
        (DeviceSelector.callAll flags o selectors).last.device = some l ∧ l ≠ []) ∧
    (∀ (prior : RuntimeOption) (device_num micro_batch_size batches_per_step : Int)
      (enable_pipelining : Bool),
      prior.UseIpu device_num micro_batch_size enable_pipelining batches_per_step =
          { prior with device := Device.CPU } ∧
        (prior.UseIpu device_num micro_batch_size enable_pipelining batches_per_step).device =
          Device.CPU) ∧
    (∀ (prior : RuntimeOption) (selector : DeviceSelector),
      (selector.call flags prior).last.device ∈
        [Device.CPU, Device.GPU, Device.RKNPU, Device.SUNRISENPU, Device.SOPHGOTPUD]) ∧
    (∀ (ort : OrtBackendOption) (trt : TrtBackendOption) (openvino : OpenVINOBackendOption)
      (rknpu2 : RKNPU2BackendOption) (benchmark : BenchmarkOption),
      ({ ort_option := ort, trt_option := trt, openvino_option := openvino,
         rknpu2_option := rknpu2, benchmark_option := benchmark } : RuntimeOption).device =
        Device.CPU) := by
  have hmem := DeviceSelector_callAll_device flags selectors o (by rw [h]; decide)
  generalize (DeviceSelector.callAll flags o selectors).last.device = d at hmem
  refine ⟨?_, ?_, ?_, ?_, fun _ _ _ _ _ => ⟨rfl, rfl⟩,
    fun prior selector => DeviceSelector_call_device flags prior selector,
    fun _ _ _ _ _ => rfl⟩
  · revert hmem; cases d <;> decide
  · revert hmem; cases d <;> decide
  · revert hmem; cases d <;> decide
  · have hl : ∀ d' : Device,
        d' ∈ [Device.CPU, Device.GPU, Device.RKNPU, Device.SUNRISENPU, Device.SOPHGOTPUD] →
        ∃ l, find s_default_backends_by_device d' = some l ∧ l ≠ [] := by
      intro d' hd'
      cases d'
      · exact ⟨_, rfl, by decide⟩
      · exact ⟨_, rfl, by decide⟩
      · exact ⟨_, rfl, by decide⟩
      · exact absurd hd' (by decide)
      · exact absurd hd' (by decide)
      · exact ⟨_, rfl, by decide⟩
      · exact ⟨_, rfl, by decide⟩
    exact hl d hmem

/-- Witness of C26: on a build without GPU and with the Sophgo engine, the
sequence `UseGpu(0)`, `UseIpu()`, `UseSophgo()`, `UseHorizon()` from a
default-constructed option ends on a device with a non-empty engine list; and
on a build with GPU, `UseIpu()` after `UseGpu(0)` leaves the CPU selected. -/
theorem device_selectors_reach_deployable_devices_witness :
    (∃ l, find s_default_backends_by_device
        (DeviceSelector.callAll ⟨true, false, false, false, false, true, false, false⟩
          sampleOption
          [DeviceSelector.UseGpu 0, DeviceSelector.UseIpu 1 1 false 1, DeviceSelector.UseSophgo,
            DeviceSelector.UseHorizon]).last.device = some l ∧ l ≠ []) ∧
    (sampleOption.UseGpu ⟨true, false, false, false, false, true, true, false⟩ 0).device =
      Device.GPU ∧
    ((sampleOption.UseGpu ⟨true, false, false, false, false, true, true, false⟩ 0).UseIpu
      1 1 false 1).device = Device.CPU :=
  ⟨(device_selectors_reach_deployable_devices
      ⟨true, false, false, false, false, true, false, false⟩ sampleOption
      [DeviceSelector.UseGpu 0, DeviceSelector.UseIpu 1 1 false 1, DeviceSelector.UseSophgo,
        DeviceSelector.UseHorizon] rfl).2.2.2.1,
    rfl,
    ((device_selectors_reach_deployable_devices
      ⟨true, false, false, false, false, true, true, false⟩ sampleOption [] rfl).2.2.2.2.1
      (sampleOption.UseGpu ⟨true, false, false, false, false, true, true, false⟩ 0)
      1 1 1 false).2⟩

/-- C27: the device selectors `UseCpu`, `UseGpu`, `UseRKNPU2`, `UseHorizon` and
`UseIpu` leave the backend field unchanged for every prior state and every
argument, so an engine chosen earlier survives a later change of device; only
`UseSophgo` also writes `backend` (`SOPHGOTPU`, when the engine is compiled
in). -/
theorem device_selectors_keep_backend (flags : BuildFlags) (o : RuntimeOption) (gpu_id : Int)
    (rknpu2_name : rknpu2.CpuName) (rknpu2_core : rknpu2.CoreMask)
    (device_num micro_batch_size batches_per_step : Int) (enable_pipelining : Bool) :
    o.UseCpu.backend = o.backend ∧
    (o.UseGpu flags gpu_id).backend = o.backend ∧
    (o.UseRKNPU2 rknpu2_name rknpu2_core).backend = o.backend ∧
    o.UseHorizon.backend = o.backend ∧
    (o.UseIpu device_num micro_batch_size enable_pipelining batches_per_step).backend =
      o.backend ∧
    Except.map RuntimeOption.backend (o.UseSophgo flags) =
      (if flags.ENABLE_SOPHGO_BACKEND = true then Except.ok Backend.SOPHGOTPU
       else Except.error ("The FastDeploy didn't compile with SophgoBackend.",
         { o with device := Device.SOPHGOTPUD })) := by
  refine ⟨rfl, ?_, rfl, rfl, rfl, ?_⟩
  · cases h : flags.WITH_GPU <;> simp [RuntimeOption.UseGpu, h]
  · cases h : flags.ENABLE_SOPHGO_BACKEND <;>
      simp [RuntimeOption.UseSophgo, RuntimeOption.UseSophgoBackend, FDASSERT, h, Except.map]

end fastdeploy
